import Mathlib

/-!
# Power-cycle scheduler of the ESP32 low-power example

Shallow embedding of `main/main.c`: the persisted `system_status`, the wake
classification (`get_wakeup_reason`), the schedule check (`check_schedule`) and
the FreeRTOS tasks of the three job graphs, followed by the properties proved
about them.

Modelling conventions

* `time_t` is the 32-bit signed `long` of the target (the source prints it with
  `%ld`); a sum of two `time_t` values wraps (`time_t_wrap`).
* `uint32_t` arithmetic is taken modulo `2^32` (`uint32_wrap`).
* `float` values are only stored and copied, never computed with; they are
  kept as raw 32-bit patterns.
* The body of a task runs atomically once its `xEventGroupWaitBits` returns;
  which task runs next, and every outcome of an external collaborator, is an
  input (`Event`).  Every interleaving of task bodies is therefore covered.
* A failing `ESP_ERROR_CHECK` aborts: `Except.error` in the boot path, the
  `aborted` flag inside a running graph.
-/

namespace LowPower

/-! ## Machine integers and constants -/

/-- Two's-complement wrap of a mathematical integer into the 32-bit `time_t`. -/
def time_t_wrap (x : Int) : Int := (x + 2147483648) % 4294967296 - 2147483648

/-- Wrap of a natural number into `uint32_t`. -/
def uint32_wrap (n : Nat) : Nat := n % 4294967296

/-- Event bit `BIT1` of the main event group. -/
def MAIN_SLEEP_READY : Nat := 2
/-- Event bit `BIT2` of the main event group. -/
def MAIN_SEND_READY : Nat := 4
/-- Event bit `BIT3` of the main event group. -/
def MAIN_TIME_READY : Nat := 8

/-- Measurement interval, 10 s. -/
def INTERVAL_MEASURE : Int := 10
/-- Time update interval, 6 h. -/
def INTERVAL_TIME : Int := 21600
/-- Firmware update interval, 12 h. -/
def INTERVAL_OTA : Int := 43200
/-- Deep sleep duration in microseconds. -/
def SLEEP_INTERVAL : Nat := 5000000

/-! ## Data model -/

/-- The `struct system_status` of the source. -/
structure system_status where
  time : Int
  next_measurement_time : Int
  next_ota_time : Int
  next_time_update : Int
  cycles : Nat
  keys_registered : Bool
  hall : Nat
  temperature : Nat
deriving DecidableEq, Repr

/-- The zero-initialised global `status` as it is found in RAM right after boot. -/
def status_zero : system_status :=
  { time := 0, next_measurement_time := 0, next_ota_time := 0, next_time_update := 0,
    cycles := 0, keys_registered := false, hall := 0, temperature := 0 }

/-- The eight static task handles of the source. -/
inductive TaskHandle
  | sleep_task_handle
  | sensor_task_handle
  | wifi_task_handle
  | key_register_handle
  | console_handle
  | send_data_handle
  | update_time_handle
  | ota_task_handle
deriving DecidableEq, Repr

/-- Error codes that reach `ESP_ERROR_CHECK`. -/
inductive esp_err
  | ESP_FAIL
  | ESP_ERR_NVS_NOT_FOUND
  | ESP_ERR_NVS_INVALID_LENGTH
deriving DecidableEq, Repr

/-- The wake-up causes switched on in `get_wakeup_reason`. -/
inductive esp_sleep_wakeup_cause_t
  | ESP_SLEEP_WAKEUP_UNDEFINED
  | ESP_SLEEP_WAKEUP_ALL
  | ESP_SLEEP_WAKEUP_EXT0
  | ESP_SLEEP_WAKEUP_EXT1
  | ESP_SLEEP_WAKEUP_TIMER
  | ESP_SLEEP_WAKEUP_TOUCHPAD
  | ESP_SLEEP_WAKEUP_ULP
  | ESP_SLEEP_WAKEUP_GPIO
  | ESP_SLEEP_WAKEUP_UART
  | ESP_SLEEP_WAKEUP_OTHER
deriving DecidableEq, Repr

/-- Which of `ota_schedule`, `sensor_schedule`, `sleep_schedule` the schedule check calls. -/
inductive JobKind
  | OTA
  | Measurement
  | Idle
deriving DecidableEq, Repr

/-! ## Key-value store (storage.h) -/

/-- A stored value: the object representation of a `system_status`
(`sizeof(status)` bytes, copied whole) or a character string. -/
inductive Blob
  | status_obj (s : system_status)
  | chars (cs : String)
deriving DecidableEq, Repr

/-- The non-volatile store: entries `(region, key, value)`, newest first. -/
abbrev KvStore := List (String × String × Blob)

/-- Look a key up; the newest entry wins. -/
def kv_find (kv : KvStore) (region key : String) : Option Blob :=
  match kv with
  | [] => none
  | (r, k, b) :: rest => if r = region ∧ k = key then some b else kv_find rest region key

/-- Modelled from the spec: `kv_store` of storage.h, the save operation of the store
interface (section 6): `save(namespace, key, bytes) -> Ok | IOError`.  The I/O
error is the input `fault`. -/
def kv_store (fault : Bool) (kv : KvStore) (region key : String) (b : Blob) :
    Except esp_err KvStore :=
  if fault then .error .ESP_FAIL else .ok ((region, key, b) :: kv)

/-- Modelled from the spec: `kv_load` of storage.h, the load operation of the store
interface (section 6): `load(namespace, key) -> bytes | NotFound | IOError`.  The
I/O error is the input `fault`. -/
def kv_load (fault : Bool) (kv : KvStore) (region key : String) : Except esp_err Blob :=
  if fault then .error .ESP_FAIL
  else match kv_find kv region key with
    | none => .error .ESP_ERR_NVS_NOT_FOUND
    | some b => .ok b

/-! ## Calls to external collaborators and to the kernel, in program order -/

/-- One observable call made by the program.  `network_wait` is a return of
`xEventGroupWaitBits(network_event_group, ...)` with the two bits it reports. -/
inductive Call
  | kv_store_status (s : system_status)
  | esp_deep_sleep (us : Nat)
  | send_message (hall temperature : Nat)
  | sensor_loop_float
  | wifi_join (result : Bool)
  | network_wait (eth_ready sta_ready : Bool)
  | localtime_r (t tm_year : Int)
  | sntp_update
  | ubirch_firmware_update
  | register_keys (keys_registered_at_call result : Bool)
  | run_console
  | rtc_wdt_protect_off
  | rtc_wdt_protect_on
  | vTaskSuspend (h : TaskHandle)
  | vTaskResume (h : TaskHandle)
  | vTaskDelete (h : TaskHandle)
  | xTaskCreate (h : TaskHandle)
  | xEventGroupSetBits (mask : Nat)
deriving DecidableEq, Repr

/-! ## System state -/

/-- The state of the device during one wake cycle. -/
structure Sys where
  /-- the global `status` -/
  status : system_status
  /-- the handle `main_event_group` is not `NULL` -/
  main_event_group_created : Bool
  /-- bits of `main_event_group` -/
  main_event_group : Nat
  /-- bit `NETWORK_ETH_READY` of `network_event_group` -/
  eth_ready : Bool
  /-- bit `NETWORK_STA_READY` of `network_event_group` -/
  sta_ready : Bool
  /-- non-volatile storage -/
  kv : KvStore
  /-- task handles that are not `NULL` -/
  handles : List TaskHandle
  /-- tasks that called `vTaskDelete(NULL)` -/
  deleted : List TaskHandle
  /-- tasks suspended by `vTaskSuspend` -/
  suspended : List TaskHandle
  /-- the console task is blocked inside `run_console` -/
  in_console : Bool
  /-- `esp_deep_sleep` was entered -/
  asleep : Bool
  /-- an `ESP_ERROR_CHECK` failed -/
  aborted : Bool
  /-- calls made so far, oldest first -/
  log : List Call
deriving DecidableEq, Repr

/-- The device right after boot: zeroed RAM, no task, no event bit; only the
non-volatile store survives. -/
def boot (kv : KvStore) : Sys :=
  { status := status_zero, main_event_group_created := false, main_event_group := 0,
    eth_ready := false, sta_ready := false,
    kv := kv, handles := [], deleted := [], suspended := [], in_console := false,
    asleep := false, aborted := false, log := [] }

/-- The test `event_bits & mask` of the source. -/
def bits_set (event_bits mask : Nat) : Bool := (event_bits &&& mask) != 0

/-- The call `xEventGroupSetBits(main_event_group, mask)`. -/
def set_main_bits (mask : Nat) (g : Sys) : Sys :=
  { g with main_event_group := g.main_event_group ||| mask,
           log := g.log ++ [.xEventGroupSetBits mask] }

/-- The call `vTaskDelete(NULL)` made by task `h`. -/
def task_delete (h : TaskHandle) (g : Sys) : Sys :=
  { g with deleted := h :: g.deleted, log := g.log ++ [.vTaskDelete h] }

/-- The call `xTaskCreate(..., &h)`. -/
def task_create (h : TaskHandle) (g : Sys) : Sys :=
  { g with handles := g.handles ++ [h], log := g.log ++ [.xTaskCreate h] }

/-- The statement `if (h) vTaskSuspend(h);`. -/
def task_suspend (h : TaskHandle) (g : Sys) : Sys :=
  if h ∈ g.handles then
    { g with suspended := h :: g.suspended, log := g.log ++ [.vTaskSuspend h] }
  else g

/-- The statement `if (h) vTaskResume(h);`. -/
def task_resume (h : TaskHandle) (g : Sys) : Sys :=
  if h ∈ g.handles then
    { g with suspended := g.suspended.filter (fun t => t ≠ h),
             log := g.log ++ [.vTaskResume h] }
  else g

/-! ## Boot path: `init_system`, `get_wakeup_reason`, `check_schedule`, `app_main` -/

/-- Function `init_system`: creates the main event group (all bits clear) if the
handle is still `NULL`; `create_ok` is the outcome of `xEventGroupCreate`. -/
def init_system (create_ok : Bool) (g : Sys) : Except esp_err Sys :=
  if g.main_event_group_created then .ok g
  else if create_ok then
    .ok { g with main_event_group_created := true, main_event_group := 0 }
  else .error .ESP_FAIL

/-- Function `get_wakeup_reason`: the switch over the wake-up cause. -/
def get_wakeup_reason (cause : esp_sleep_wakeup_cause_t) (load_fault : Bool) (g : Sys) :
    Except esp_err Sys :=
  match cause with
  | .ESP_SLEEP_WAKEUP_UNDEFINED =>
    .ok { g with status :=
      { g.status with cycles := 0, next_measurement_time := 0, keys_registered := false,
                      time := 0, next_time_update := 0 } }
  | .ESP_SLEEP_WAKEUP_TIMER =>
    match kv_load load_fault g.kv "status-region" "status-key" with
    | .error e => .error e
    | .ok (.status_obj s) => .ok { g with status := s }
    | .ok (.chars _) => .error .ESP_ERR_NVS_INVALID_LENGTH
  | _ => .ok g

/-- Function `sensor_schedule`: the tasks of the measurement graph, in creation order. -/
def sensor_schedule (g : Sys) : Sys :=
  task_create .update_time_handle (task_create .send_data_handle
    (task_create .key_register_handle (task_create .sleep_task_handle
      (task_create .sensor_task_handle (task_create .console_handle
        (task_create .wifi_task_handle g))))))

/-- Function `sleep_schedule`: only the sleep task, with `MAIN_SLEEP_READY` raised at once. -/
def sleep_schedule (g : Sys) : Sys :=
  set_main_bits MAIN_SLEEP_READY (task_create .sleep_task_handle g)

/-- Function `ota_schedule`: the tasks of the firmware update graph. -/
def ota_schedule (g : Sys) : Sys :=
  task_create .sleep_task_handle (task_create .ota_task_handle
    (task_create .wifi_task_handle g))

/-- Function `check_schedule`: `now` is the `tv_sec` read by `gettimeofday`. -/
def check_schedule (now : Int) (g : Sys) : JobKind × Sys :=
  if now ≥ g.status.next_ota_time then (.OTA, ota_schedule g)
  else if now ≥ g.status.next_measurement_time then (.Measurement, sensor_schedule g)
  else (.Idle, sleep_schedule g)

/-- The statement `status.cycles++`. -/
def increment_cycles (g : Sys) : Sys :=
  { g with status := { g.status with cycles := uint32_wrap (g.status.cycles + 1) } }

/-- Function `app_main` up to the schedule check, without the check itself. -/
def app_main_wake (create_ok : Bool) (cause : esp_sleep_wakeup_cause_t) (load_fault : Bool)
    (g : Sys) : Except esp_err Sys :=
  match init_system create_ok g with
  | .error e => .error e
  | .ok g1 =>
    match get_wakeup_reason cause load_fault g1 with
    | .error e => .error e
    | .ok g2 => .ok (increment_cycles g2)

/-- Function `app_main`. -/
def app_main (create_ok : Bool) (cause : esp_sleep_wakeup_cause_t) (load_fault : Bool)
    (now : Int) (g : Sys) : Except esp_err (JobKind × Sys) :=
  match app_main_wake create_ok cause load_fault g with
  | .error e => .error e
  | .ok g3 => .ok (check_schedule now g3)

/-! ## The tasks

Each definition is the body of the task's endless loop from the point where
its wait returns; a wait whose bits are not raised leaves the task blocked and
the state unchanged. -/

/-- Task `sleep_task`; `store_fault` is the outcome of `kv_store`. -/
def sleep_task (store_fault : Bool) (g : Sys) : Sys :=
  if bits_set g.main_event_group MAIN_SLEEP_READY then
    match kv_store store_fault g.kv "status-region" "status-key" (.status_obj g.status) with
    | .error _ => { g with aborted := true }
    | .ok kv =>
      { g with kv := kv, asleep := true,
               log := g.log ++ [.kv_store_status g.status, .esp_deep_sleep SLEEP_INTERVAL] }
  else g

/-- Task `send_data_task`. -/
def send_data_task (g : Sys) : Sys :=
  if bits_set g.main_event_group MAIN_SEND_READY then
    task_delete .send_data_handle (set_main_bits MAIN_SLEEP_READY
      { g with log := g.log ++ [.send_message g.status.hall g.status.temperature] })
  else g

/-- Task `sensor_task`; `hall` and `temperature` are what `sensor_loop_float` writes. -/
def sensor_task (hall temperature : Nat) (g : Sys) : Sys :=
  if bits_set g.main_event_group MAIN_TIME_READY then
    let g1 : Sys := { g with status := { g.status with hall := hall, temperature := temperature },
                             log := g.log ++ [.sensor_loop_float] }
    let g2 := set_main_bits MAIN_SEND_READY g1
    let g3 : Sys := { g2 with status := { g2.status with
      next_measurement_time := time_t_wrap (g2.status.time + INTERVAL_MEASURE) } }
    task_delete .sensor_task_handle g3
  else g

/-- Task `wifi_task`; `load_fault` is an I/O error of the store, `join_ok` the
outcome of `wifi_join`. -/
def wifi_task (load_fault join_ok : Bool) (g : Sys) : Sys :=
  match kv_load load_fault g.kv "wifi_data" "wifi_ssid" with
  | .ok _ => task_delete .wifi_task_handle { g with log := g.log ++ [.wifi_join join_ok] }
  | .error _ => task_delete .wifi_task_handle g

/-- Task `enter_console_task`, first half: from the interrupt character to the
call of `run_console`; `wdt_on` is the outcome of `rtc_wdt_is_on`. -/
def console_suspend (wdt_on : Bool) (g : Sys) : Sys :=
  let g1 := task_suspend .wifi_task_handle g
  let g2 := task_suspend .sensor_task_handle g1
  let g3 := task_suspend .sleep_task_handle g2
  let g4 := task_suspend .key_register_handle g3
  let g5 := task_suspend .send_data_handle g4
  let g6 : Sys := if wdt_on then { g5 with log := g5.log ++ [.rtc_wdt_protect_off] } else g5
  { g6 with in_console := true, log := g6.log ++ [.run_console] }

/-- Task `enter_console_task`, second half: from the return of `run_console` on. -/
def console_resume (wdt_on : Bool) (g : Sys) : Sys :=
  let g1 : Sys := if wdt_on then { g with log := g.log ++ [.rtc_wdt_protect_on] } else g
  let g2 := task_resume .send_data_handle g1
  let g3 := task_resume .key_register_handle g2
  let g4 := task_resume .sleep_task_handle g3
  let g5 := task_resume .sensor_task_handle g4
  let g6 := task_resume .wifi_task_handle g5
  { g6 with in_console := false }

/-- Task `enter_console_task`: one pass of its loop for the character `c`, with a
console session during which no other task runs. -/
def enter_console_task (c : Nat) (wdt_before wdt_after : Bool) (g : Sys) : Sys :=
  if c = 0x03 ∨ c = 0x15 then console_resume wdt_after (console_suspend wdt_before g) else g

/-- Task `update_time_task`; `clock` is what `time` returns and `tm_year` the
year field `localtime_r` computes for it. -/
def update_time_task (clock tm_year : Int) (g : Sys) : Sys :=
  if g.eth_ready || g.sta_ready then
    let g1 : Sys := { g with status := { g.status with time := clock },
                             log := g.log ++ [.network_wait g.eth_ready g.sta_ready,
                                              .localtime_r clock tm_year] }
    if tm_year ≥ 2019 - 1900 then
      let g2 : Sys := { g1 with status := { g1.status with
        next_time_update := time_t_wrap (g1.status.time + INTERVAL_TIME) } }
      task_delete .update_time_handle (set_main_bits MAIN_TIME_READY g2)
    else if g1.status.time ≥ g1.status.next_time_update then
      { g1 with log := g1.log ++ [.sntp_update] }
    else g1
  else g

/-- Task `ota_task`. -/
def ota_task (g : Sys) : Sys :=
  if g.eth_ready || g.sta_ready then
    let g1 : Sys := { g with log := g.log ++ [.network_wait g.eth_ready g.sta_ready,
                                              .ubirch_firmware_update] }
    let g2 : Sys := { g1 with status := { g1.status with
      next_ota_time := time_t_wrap (g1.status.time + INTERVAL_OTA) } }
    task_delete .ota_task_handle (set_main_bits MAIN_SLEEP_READY g2)
  else g

/-- Task `key_register_task`; `result` is the outcome of `register_keys`, which
the task does not look at. -/
def key_register_task (result : Bool) (g : Sys) : Sys :=
  if bits_set g.main_event_group MAIN_TIME_READY then
    let g2 : Sys :=
      if g.status.keys_registered = false then
        let g1 : Sys := { g with status := { g.status with keys_registered := true } }
        { g1 with log := g1.log ++ [.register_keys g1.status.keys_registered result] }
      else g
    task_delete .key_register_handle g2
  else g

/-! ## The running graph -/

/-- What happens next: a task is given the processor (together with the
outcomes of the external calls it makes), or the networking collaborator
raises or clears one of its two bits. -/
inductive Event
  | raise_eth_ready
  | raise_sta_ready
  | clear_eth_ready
  | clear_sta_ready
  | run_sleep (store_fault : Bool)
  | run_send_data
  | run_sensor (hall temperature : Nat)
  | run_wifi (load_fault join_ok : Bool)
  | console_key (c : Nat) (wdt_on : Bool)
  | console_exit (wdt_on : Bool)
  | run_update_time (clock tm_year : Int)
  | run_ota
  | run_key_register (result : Bool)
deriving DecidableEq, Repr

/-- A task can run: it was created, has not deleted itself and is not suspended. -/
def runnable (g : Sys) (h : TaskHandle) : Bool :=
  decide (h ∈ g.handles) && !decide (h ∈ g.deleted) && !decide (h ∈ g.suspended)

/-- One step of the running graph.  Nothing runs after deep sleep was entered
or after an abort. -/
def step (g : Sys) (e : Event) : Sys :=
  if g.asleep || g.aborted then g
  else match e with
    | .raise_eth_ready => { g with eth_ready := true }
    | .raise_sta_ready => { g with sta_ready := true }
    | .clear_eth_ready => { g with eth_ready := false }
    | .clear_sta_ready => { g with sta_ready := false }
    | .run_sleep f => if runnable g .sleep_task_handle then sleep_task f g else g
    | .run_send_data => if runnable g .send_data_handle then send_data_task g else g
    | .run_sensor h t => if runnable g .sensor_task_handle then sensor_task h t g else g
    | .run_wifi f j => if runnable g .wifi_task_handle then wifi_task f j g else g
    | .console_key c w =>
      if runnable g .console_handle && !g.in_console && (c == 0x03 || c == 0x15) then
        console_suspend w g
      else g
    | .console_exit w =>
      if runnable g .console_handle && g.in_console then console_resume w g else g
    | .run_update_time c y => if runnable g .update_time_handle then update_time_task c y g else g
    | .run_ota => if runnable g .ota_task_handle then ota_task g else g
    | .run_key_register r =>
      if runnable g .key_register_handle then key_register_task r g else g

/-- A run of the graph: the events are taken in order. -/
def run (g : Sys) (es : List Event) : Sys := es.foldl step g

/-- The event is one of the two raises of a network-ready bit. -/
def Event.is_net_raise : Event → Bool
  | .raise_eth_ready => true
  | .raise_sta_ready => true
  | _ => false

/-! ## Concrete states used in scenarios -/

/-- The scenario status of the schedule check: OTA due at 100000, measurement at 50000. -/
def scenario_status : Sys :=
  { boot [] with status := { status_zero with next_ota_time := 100000,
                                               next_measurement_time := 50000 } }

/-- A graph in which `MAIN_TIME_READY` is raised, keys are not registered and
the key registration task exists. -/
def keys_pending : Sys :=
  { boot [] with main_event_group := MAIN_TIME_READY, handles := [.key_register_handle] }

/-- A graph with a network bit raised whose time update deadline was written at
clock 1600000000. -/
def clock_synced : Sys :=
  { boot [] with sta_ready := true, handles := [.update_time_handle],
                 status := { status_zero with time := 1600000000,
                                              next_time_update := 1600021600 } }

/-- A measurement graph right after `sensor_schedule`, all seven tasks created. -/
def measurement_graph : Sys := sensor_schedule scenario_status

/-- A status about to be persisted, with `MAIN_SLEEP_READY` raised. -/
def ready_to_sleep : Sys :=
  { boot [] with main_event_group := MAIN_SLEEP_READY, handles := [.sleep_task_handle],
                 status := { time := 1600000000, next_measurement_time := 1600000010,
                             next_ota_time := 1600043200, next_time_update := 1600021600,
                             cycles := 7, keys_registered := true,
                             hall := 1078530011, temperature := 1103626240 } }

/-- The calls `vTaskSuspend` of a log, in order. -/
def suspended_in (log : List Call) : List TaskHandle :=
  log.filterMap (fun c => match c with | .vTaskSuspend h => some h | _ => none)

/-- The calls `vTaskResume` of a log, in order. -/
def resumed_in (log : List Call) : List TaskHandle :=
  log.filterMap (fun c => match c with | .vTaskResume h => some h | _ => none)

/-- The handles `enter_console_task` passes to `vTaskSuspend`, among those that are set. -/
def console_targets (handles : List TaskHandle) : List TaskHandle :=
  [TaskHandle.wifi_task_handle, .sensor_task_handle, .sleep_task_handle,
   .key_register_handle, .send_data_handle].filter (fun h => decide (h ∈ handles))

/-- The log holds a call of `send_message`. -/
def has_send_message (log : List Call) : Bool :=
  log.any (fun c => match c with | .send_message _ _ => true | _ => false)

/-- The log holds a call of `sensor_loop_float`. -/
def has_sensor_read (log : List Call) : Bool :=
  log.any (fun c => match c with | .sensor_loop_float => true | _ => false)

/-- The log holds a clock reading whose calendar year is at least 2019. -/
def has_plausible_clock (log : List Call) : Bool :=
  log.any (fun c => match c with | .localtime_r _ y => decide (y ≥ 2019 - 1900) | _ => false)

/-- The log holds a wait on the network event group that returned with a bit raised. -/
def has_network_ready (log : List Call) : Bool :=
  log.any (fun c => match c with | .network_wait e s => e || s | _ => false)

/-- The log holds a `kv_store` of the status or an `esp_deep_sleep`. -/
def has_sleep_call (log : List Call) : Bool :=
  log.any (fun c => match c with
    | .kv_store_status _ => true
    | .esp_deep_sleep _ => true
    | _ => false)

/-- Signal order of the measurement graph, each raised bit with the calls that
must have preceded it. -/
def signal_order (g : Sys) : Prop :=
  (bits_set g.main_event_group MAIN_SLEEP_READY = true →
    bits_set g.main_event_group MAIN_SEND_READY = true ∧ has_send_message g.log = true) ∧
  (bits_set g.main_event_group MAIN_SEND_READY = true →
    bits_set g.main_event_group MAIN_TIME_READY = true ∧ has_sensor_read g.log = true) ∧
  (bits_set g.main_event_group MAIN_TIME_READY = true →
    has_network_ready g.log = true ∧ has_plausible_clock g.log = true) ∧
  ((g.asleep = true ∨ has_sleep_call g.log = true) →
    bits_set g.main_event_group MAIN_SLEEP_READY = true)

instance (g : Sys) : Decidable (signal_order g) := by
  unfold signal_order; infer_instance

/-- No event of the list raises a network-ready bit. -/
def no_net_raise (es : List Event) : Bool := es.all (fun e => !e.is_net_raise)
/-- Calls made by the console task around a console session. -/
def console_call (c : Call) : Bool :=
  match c with
  | .vTaskSuspend _ => true
  | .vTaskResume _ => true
  | .rtc_wdt_protect_off => true
  | .rtc_wdt_protect_on => true
  | .run_console => true
  | _ => false

/-- A timer wake together with what preceded it: the events that took the
previous cycle's graph into deep sleep, the outcome of `kv_load` at this wake
and the clock at its schedule check. -/
structure TimerWake where
  before : List Event
  load_fault : Bool
  now : Int
deriving DecidableEq, Repr

/-- One timer wake: the previous graph `g` runs into deep sleep, the device
boots with the store it left and executes `app_main`.  The result is the state
right after `app_main`; `none` if the previous cycle never entered deep sleep
or if an `ESP_ERROR_CHECK` of the boot path fails. -/
def timer_wake (g : Sys) (w : TimerWake) : Option Sys :=
  if (run g w.before).asleep then
    match app_main true .ESP_SLEEP_WAKEUP_TIMER w.load_fault w.now (boot (run g w.before).kv) with
    | .ok (_, g1) => some g1
    | .error _ => none
  else none

/-- Consecutive timer wakes, in order. -/
def timer_wakes (g : Sys) : List TimerWake → Option Sys
  | [] => some g
  | w :: ws =>
    match timer_wake g w with
    | some g1 => timer_wakes g1 ws
    | none => none

/-- A hard-reset wake at clock `now` followed by the timer wakes `ws`. -/
def wakes (kv : KvStore) (now : Int) (ws : List TimerWake) : Option Sys :=
  match app_main true .ESP_SLEEP_WAKEUP_UNDEFINED false now (boot kv) with
  | .ok (_, g) => timer_wakes g ws
  | .error _ => none

/-- A first cycle after a hard reset that completes its firmware update graph,
followed by one timer wake at clock 5. -/
def one_timer_wake : List TimerWake :=
  [{ before := [.raise_sta_ready, .run_ota, .run_sleep false], load_fault := false, now := 5 }]

/-- A graph in which a network bit and `MAIN_TIME_READY` are raised, with the
status written at clock 1600000000. -/
def time_ready : Sys :=
  { boot [] with sta_ready := true, main_event_group := MAIN_TIME_READY,
                 handles := [.sensor_task_handle, .update_time_handle, .ota_task_handle],
                 status := { status_zero with time := 1600000000,
                                              next_measurement_time := 1600000010,
                                              next_ota_time := 1600043200,
                                              next_time_update := 1600021600 } }

/-- The state `time_ready` later on: `status.time` has advanced to 1600000015, the
deadlines are still those written at 1600000000. -/
def time_later : Sys :=
  { time_ready with status := { time_ready.status with time := 1600000015 } }

/-- The state `time_ready` with `status.time` at the largest value of `time_t`. -/
def time_overflow : Sys :=
  { time_ready with status := { time_ready.status with time := 2147483647 } }

/-! ## Helper lemmas -/

theorem time_t_wrap_eq (x : Int) (h1 : -2147483648 ≤ x) (h2 : x ≤ 2147483647) :
    time_t_wrap x = x := by
  unfold time_t_wrap; omega

theorem or_and_disjoint (b m k : Nat) (h : m &&& k = 0) : (b ||| m) &&& k = b &&& k := by
  apply Nat.eq_of_testBit_eq; intro i
  have hi := congrArg (fun x => x.testBit i) h
  simp only [Nat.testBit_and, Nat.zero_testBit] at hi
  simp only [Nat.testBit_and, Nat.testBit_or]
  cases hb : b.testBit i <;> cases hm : m.testBit i <;> cases hk : k.testBit i <;> simp_all

theorem or_and_same (b m : Nat) : (b ||| m) &&& m = m := by
  apply Nat.eq_of_testBit_eq; intro i
  simp only [Nat.testBit_and, Nat.testBit_or]
  cases b.testBit i <;> cases m.testBit i <;> rfl

/-! ## Schedule check -/

/-- C1: for every status and every current time the schedule check calls exactly
one of the three schedule functions: `ota_schedule` when `now >= next_ota_time`,
whatever the other deadlines are; otherwise `sensor_schedule` when
`now >= next_measurement_time`; otherwise `sleep_schedule`.  The graph launched is
the wifi, firmware update and sleep tasks; or the seven tasks of the
measurement graph; or the sleep task alone with `MAIN_SLEEP_READY` raised. -/
theorem check_schedule_priority (g : Sys) (now : Int) :
    (now ≥ g.status.next_ota_time → check_schedule now g = (JobKind.OTA, ota_schedule g)) ∧
    (now < g.status.next_ota_time → now ≥ g.status.next_measurement_time →
      check_schedule now g = (JobKind.Measurement, sensor_schedule g)) ∧
    (now < g.status.next_ota_time → now < g.status.next_measurement_time →
      check_schedule now g = (JobKind.Idle, sleep_schedule g)) ∧
    ((ota_schedule g).handles
        = g.handles ++ [.wifi_task_handle, .ota_task_handle, .sleep_task_handle] ∧
      (ota_schedule g).main_event_group = g.main_event_group ∧
      (ota_schedule g).status = g.status) ∧
    ((sensor_schedule g).handles
        = g.handles ++ [.wifi_task_handle, .console_handle, .sensor_task_handle,
            .sleep_task_handle, .key_register_handle, .send_data_handle,
            .update_time_handle] ∧
      (sensor_schedule g).main_event_group = g.main_event_group ∧
      (sensor_schedule g).status = g.status) ∧
    ((sleep_schedule g).handles = g.handles ++ [.sleep_task_handle] ∧
      (sleep_schedule g).main_event_group = g.main_event_group ||| MAIN_SLEEP_READY ∧
      bits_set (sleep_schedule g).main_event_group MAIN_SLEEP_READY = true ∧
      (sleep_schedule g).status = g.status) := by
  refine ⟨?_, ?_, ?_, by simp [ota_schedule, task_create],
    by simp [sensor_schedule, task_create], ?_⟩
  rotate_right
  · have hb : (g.main_event_group ||| MAIN_SLEEP_READY) &&& MAIN_SLEEP_READY ≠ 0 := by
      rw [or_and_same]; decide
    simp [sleep_schedule, set_main_bits, task_create, bits_set, hb]
  · intro h; simp [check_schedule, h]
  · intro h1 h2
    have h1' : ¬ now ≥ g.status.next_ota_time := by omega
    simp [check_schedule, h1', h2]
  · intro h1 h2
    have h1' : ¬ now ≥ g.status.next_ota_time := by omega
    have h2' : ¬ now ≥ g.status.next_measurement_time := by omega
    simp [check_schedule, h1', h2']

/-- C1, scenario: deadlines 100000 (OTA) and 50000 (measurement) at time 60000
give the measurement graph. -/
theorem check_schedule_priority_witness :
    check_schedule 60000 scenario_status
      = (JobKind.Measurement, sensor_schedule scenario_status) :=
  (check_schedule_priority scenario_status 60000).2.1 (by decide) (by decide)

/-! ## Wake classification -/

theorem init_system_boot (kv : KvStore) :
    init_system true (boot kv)
      = .ok { boot kv with main_event_group_created := true, main_event_group := 0 } := rfl

/-- C4, as the code has it: for every status with `keys_registered = false`, once
`MAIN_TIME_READY` is raised the key registration task first sets
`keys_registered` and then calls `register_keys` exactly once, so the flag is
already true at the call and stays true whatever `register_keys` returns; the
task then deletes itself and touches nothing else.  With `keys_registered`
already true it calls nothing and leaves the status as it is. -/
theorem key_register_sets_flag_first (g : Sys) (result : Bool)
    (hbit : bits_set g.main_event_group MAIN_TIME_READY = true) :
    (g.status.keys_registered = false →
      (key_register_task result g).status = { g.status with keys_registered := true } ∧
      (key_register_task result g).log
        = g.log ++ [.register_keys true result, .vTaskDelete .key_register_handle]) ∧
    (g.status.keys_registered = true →
      (key_register_task result g).status = g.status ∧
      (key_register_task result g).log = g.log ++ [.vTaskDelete .key_register_handle]) := by
  constructor
  · intro h
    simp [key_register_task, hbit, h, task_delete]
  · intro h
    simp [key_register_task, hbit, h, task_delete]

theorem key_register_sets_flag_first_witness :
    (key_register_task false keys_pending).status
        = { keys_pending.status with keys_registered := true } ∧
      (key_register_task false keys_pending).log
        = keys_pending.log ++ [.register_keys true false, .vTaskDelete .key_register_handle] :=
  (key_register_sets_flag_first keys_pending false (by decide)).1 (by decide)

/-- C4, counterexample: with `register_keys` failing, the flag is true at the
moment of the call and true after the task has run. -/
theorem key_register_flag_despite_failure :
    keys_pending.status.keys_registered = false ∧
    Call.register_keys true false ∈ (key_register_task false keys_pending).log ∧
    (key_register_task false keys_pending).status.keys_registered = true := by
  decide

/-! ## Deadlines -/

theorem sensor_task_deadline (hall temperature : Nat) (g : Sys)
    (h : bits_set g.main_event_group MAIN_TIME_READY = true) :
    (sensor_task hall temperature g).status.next_measurement_time
      = time_t_wrap (g.status.time + INTERVAL_MEASURE) := by
  simp [sensor_task, h, task_delete, set_main_bits]

theorem ota_task_deadline (g : Sys) (h : (g.eth_ready || g.sta_ready) = true) :
    (ota_task g).status.next_ota_time = time_t_wrap (g.status.time + INTERVAL_OTA) := by
  simp [ota_task, h, task_delete, set_main_bits]

theorem update_time_task_deadline (clock tm_year : Int) (g : Sys)
    (h : (g.eth_ready || g.sta_ready) = true) (hy : tm_year ≥ 2019 - 1900) :
    (update_time_task clock tm_year g).status.time = clock ∧
    (update_time_task clock tm_year g).status.next_time_update
      = time_t_wrap (clock + INTERVAL_TIME) := by
  have hy' : (119 : Int) ≤ tm_year := by omega
  simp [update_time_task, h, hy', task_delete, set_main_bits]

/-- C5, as the code has it: each of the three steps writes `status.time` plus its
fixed interval wrapped into the 32-bit `time_t`, whatever the status is (10 s
for the sensor task, 43200 s for the firmware update task, 21600 s for the
time update task, whose `status.time` is the clock reading it has just
stored); when the sum lies in the range of `time_t` the written value is the
plain sum.  A deadline does not move backward when its previous value was
written by the same step in a state `p` whose `status.time` (for the time update
task: whose clock reading) is not later than the current one and neither sum
leaves the range of `time_t`. -/
theorem deadline_written_from_status_time (g p : Sys) (hall temperature hall0 temperature0 : Nat)
    (clock tm_year clock0 tm_year0 : Int) :
    (bits_set g.main_event_group MAIN_TIME_READY = true →
      (sensor_task hall temperature g).status.next_measurement_time
        = time_t_wrap (g.status.time + INTERVAL_MEASURE) ∧
      (-2147483648 ≤ g.status.time + 10 → g.status.time + 10 ≤ 2147483647 →
        (sensor_task hall temperature g).status.next_measurement_time = g.status.time + 10) ∧
      (bits_set p.main_event_group MAIN_TIME_READY = true →
        g.status.next_measurement_time
          = (sensor_task hall0 temperature0 p).status.next_measurement_time →
        p.status.time ≤ g.status.time →
        -2147483648 ≤ p.status.time + 10 → g.status.time + 10 ≤ 2147483647 →
        g.status.next_measurement_time
          ≤ (sensor_task hall temperature g).status.next_measurement_time)) ∧
    ((g.eth_ready || g.sta_ready) = true →
      (ota_task g).status.next_ota_time = time_t_wrap (g.status.time + INTERVAL_OTA) ∧
      (-2147483648 ≤ g.status.time + 43200 → g.status.time + 43200 ≤ 2147483647 →
        (ota_task g).status.next_ota_time = g.status.time + 43200) ∧
      ((p.eth_ready || p.sta_ready) = true →
        g.status.next_ota_time = (ota_task p).status.next_ota_time →
        p.status.time ≤ g.status.time →
        -2147483648 ≤ p.status.time + 43200 → g.status.time + 43200 ≤ 2147483647 →
        g.status.next_ota_time ≤ (ota_task g).status.next_ota_time)) ∧
    ((g.eth_ready || g.sta_ready) = true → tm_year ≥ 2019 - 1900 →
      (update_time_task clock tm_year g).status.time = clock ∧
      (update_time_task clock tm_year g).status.next_time_update
        = time_t_wrap (clock + INTERVAL_TIME) ∧
      (-2147483648 ≤ clock + 21600 → clock + 21600 ≤ 2147483647 →
        (update_time_task clock tm_year g).status.next_time_update = clock + 21600) ∧
      ((p.eth_ready || p.sta_ready) = true → tm_year0 ≥ 2019 - 1900 →
        g.status.next_time_update
          = (update_time_task clock0 tm_year0 p).status.next_time_update →
        clock0 ≤ clock →
        -2147483648 ≤ clock0 + 21600 → clock + 21600 ≤ 2147483647 →
        g.status.next_time_update
          ≤ (update_time_task clock tm_year g).status.next_time_update)) := by
  refine ⟨fun hg => ⟨sensor_task_deadline _ _ g hg, fun h1 h2 => ?_,
      fun hp hold hle h1 h2 => ?_⟩,
    fun hg => ⟨ota_task_deadline g hg, fun h1 h2 => ?_, fun hp hold hle h1 h2 => ?_⟩,
    fun hg hy => ⟨(update_time_task_deadline clock tm_year g hg hy).1,
      (update_time_task_deadline clock tm_year g hg hy).2, fun h1 h2 => ?_,
      fun hp hy0 hold hle h1 h2 => ?_⟩⟩
  · rw [sensor_task_deadline _ _ g hg]
    exact time_t_wrap_eq _ h1 h2
  · rw [hold, sensor_task_deadline _ _ g hg, sensor_task_deadline _ _ p hp,
      show p.status.time + INTERVAL_MEASURE = p.status.time + 10 from rfl,
      show g.status.time + INTERVAL_MEASURE = g.status.time + 10 from rfl,
      time_t_wrap_eq _ h1 (by omega), time_t_wrap_eq _ (by omega) h2]
    omega
  · rw [ota_task_deadline g hg]
    exact time_t_wrap_eq _ h1 h2
  · rw [hold, ota_task_deadline g hg, ota_task_deadline p hp,
      show p.status.time + INTERVAL_OTA = p.status.time + 43200 from rfl,
      show g.status.time + INTERVAL_OTA = g.status.time + 43200 from rfl,
      time_t_wrap_eq _ h1 (by omega), time_t_wrap_eq _ (by omega) h2]
    omega
  · rw [(update_time_task_deadline clock tm_year g hg hy).2]
    exact time_t_wrap_eq _ h1 h2
  · rw [hold, (update_time_task_deadline clock tm_year g hg hy).2,
      (update_time_task_deadline clock0 tm_year0 p hp hy0).2,
      show clock0 + INTERVAL_TIME = clock0 + 21600 from rfl,
      show clock + INTERVAL_TIME = clock + 21600 from rfl,
      time_t_wrap_eq _ h1 (by omega), time_t_wrap_eq _ (by omega) h2]
    omega

theorem deadline_written_from_status_time_witness :
    (time_later.status.next_measurement_time
        ≤ (sensor_task 7 9 time_later).status.next_measurement_time ∧
      time_later.status.next_ota_time ≤ (ota_task time_later).status.next_ota_time ∧
      time_later.status.next_time_update
        ≤ (update_time_task 1600000500 120 time_later).status.next_time_update) ∧
    (sensor_task 7 9 time_overflow).status.next_measurement_time = -2147483639 ∧
    (ota_task time_overflow).status.next_ota_time = -2147440449 ∧
    (update_time_task 2147483647 138 time_overflow).status.next_time_update = -2147462049 :=
  ⟨⟨((deadline_written_from_status_time time_later time_ready 7 9 7 9 1600000500 120
        1600000000 120).1 (by decide)).2.2 (by decide) (by decide) (by decide) (by decide)
        (by decide),
     ((deadline_written_from_status_time time_later time_ready 7 9 7 9 1600000500 120
        1600000000 120).2.1 (by decide)).2.2 (by decide) (by decide) (by decide) (by decide)
        (by decide),
     ((deadline_written_from_status_time time_later time_ready 7 9 7 9 1600000500 120
        1600000000 120).2.2 (by decide) (by decide)).2.2.2 (by decide) (by decide) (by decide)
        (by decide) (by decide) (by decide)⟩,
   ((deadline_written_from_status_time time_overflow time_ready 7 9 7 9 2147483647 138
      1600000000 120).1 (by decide)).1.trans (by decide),
   ((deadline_written_from_status_time time_overflow time_ready 7 9 7 9 2147483647 138
      1600000000 120).2.1 (by decide)).1.trans (by decide),
   ((deadline_written_from_status_time time_overflow time_ready 7 9 7 9 2147483647 138
      1600000000 120).2.2 (by decide) (by decide)).2.1.trans (by decide)⟩

/-- C5, counterexample: the time update deadline was 1600021600; the clock,
stepped back to 1599999000 (still in 2020), makes the time update task write
1600020600, which is earlier. -/
theorem deadline_moves_backward :
    clock_synced.status.next_time_update = 1600021600 ∧
    (update_time_task 1599999000 120 clock_synced).status.next_time_update = 1600020600 ∧
    (update_time_task 1599999000 120 clock_synced).status.next_time_update
      < clock_synced.status.next_time_update := by
  decide

/-! ## Time update -/

/-- C9, as the code has it: one evaluation of the time update task with a
network-ready bit raised stores the clock reading in `status.time`; if the
calendar year is at least 2019 it sets `next_time_update` to `status.time + 21600`
(in `time_t` arithmetic), raises `MAIN_TIME_READY` and deletes itself; otherwise
it raises nothing and stays alive, and it calls `sntp_update` only when the
clock reading is at least `next_time_update`. -/
theorem update_time_one_evaluation (g : Sys) (clock tm_year : Int)
    (hnet : (g.eth_ready || g.sta_ready) = true) :
    (tm_year ≥ 2019 - 1900 →
      (update_time_task clock tm_year g).status
        = { g.status with time := clock,
                          next_time_update := time_t_wrap (clock + 21600) } ∧
      (update_time_task clock tm_year g).main_event_group
        = g.main_event_group ||| MAIN_TIME_READY ∧
      bits_set (update_time_task clock tm_year g).main_event_group MAIN_TIME_READY = true ∧
      (update_time_task clock tm_year g).deleted = .update_time_handle :: g.deleted ∧
      (update_time_task clock tm_year g).log
        = g.log ++ [.network_wait g.eth_ready g.sta_ready, .localtime_r clock tm_year,
                    .xEventGroupSetBits MAIN_TIME_READY,
                    .vTaskDelete .update_time_handle]) ∧
    (tm_year < 2019 - 1900 →
      (update_time_task clock tm_year g).status = { g.status with time := clock } ∧
      (update_time_task clock tm_year g).main_event_group = g.main_event_group ∧
      (update_time_task clock tm_year g).deleted = g.deleted ∧
      (clock ≥ g.status.next_time_update →
        (update_time_task clock tm_year g).log
          = g.log ++ [.network_wait g.eth_ready g.sta_ready, .localtime_r clock tm_year,
                      .sntp_update]) ∧
      (clock < g.status.next_time_update →
        (update_time_task clock tm_year g).log
          = g.log ++ [.network_wait g.eth_ready g.sta_ready, .localtime_r clock tm_year])) := by
  constructor
  · intro hy
    have hy' : (119 : Int) ≤ tm_year := by omega
    have hb : (g.main_event_group ||| MAIN_TIME_READY) &&& MAIN_TIME_READY ≠ 0 := by
      rw [or_and_same]; decide
    simp [update_time_task, hnet, hy', task_delete, set_main_bits, INTERVAL_TIME, bits_set, hb]
  · intro hy
    have hy' : ¬ (119 : Int) ≤ tm_year := by omega
    by_cases hc : clock ≥ g.status.next_time_update
    · have hc' : ¬ clock < g.status.next_time_update := by omega
      simp [update_time_task, hnet, hy', hc, hc']
    · have hc' : clock < g.status.next_time_update := by omega
      simp [update_time_task, hnet, hy', hc, hc']

theorem update_time_one_evaluation_witness :
    (update_time_task 100 70 clock_synced).status = { clock_synced.status with time := 100 } ∧
    (update_time_task 100 70 clock_synced).main_event_group = clock_synced.main_event_group ∧
    (update_time_task 100 70 clock_synced).deleted = clock_synced.deleted ∧
    (100 ≥ clock_synced.status.next_time_update →
      (update_time_task 100 70 clock_synced).log
        = clock_synced.log ++ [.network_wait false true, .localtime_r 100 70, .sntp_update]) ∧
    (100 < clock_synced.status.next_time_update →
      (update_time_task 100 70 clock_synced).log
        = clock_synced.log ++ [.network_wait false true, .localtime_r 100 70]) :=
  (update_time_one_evaluation clock_synced 100 70 (by decide)).2 (by decide)

/-- C9, counterexample: the clock reads 100 (year 1970) while `next_time_update`
is 1600021600; the task neither raises a bit nor calls `sntp_update`. -/
theorem update_time_no_resync_before_deadline :
    (clock_synced.eth_ready || clock_synced.sta_ready) = true ∧
    Call.sntp_update ∉ (update_time_task 100 70 clock_synced).log ∧
    (update_time_task 100 70 clock_synced).log
      = [.network_wait false true, .localtime_r 100 70] := by
  decide

/-! ## Console -/

theorem suspended_in_append (l1 l2 : List Call) :
    suspended_in (l1 ++ l2) = suspended_in l1 ++ suspended_in l2 := by
  simp [suspended_in, List.filterMap_append]

theorem resumed_in_append (l1 l2 : List Call) :
    resumed_in (l1 ++ l2) = resumed_in l1 ++ resumed_in l2 := by
  simp [resumed_in, List.filterMap_append]

theorem task_suspend_handles (h : TaskHandle) (g : Sys) :
    (task_suspend h g).handles = g.handles := by
  unfold task_suspend; split <;> rfl

theorem task_resume_handles (h : TaskHandle) (g : Sys) :
    (task_resume h g).handles = g.handles := by
  unfold task_resume; split <;> rfl

theorem task_suspend_suspended_in (h : TaskHandle) (g : Sys) :
    suspended_in (task_suspend h g).log
      = suspended_in g.log ++ [h].filter (fun t => decide (t ∈ g.handles)) := by
  unfold task_suspend
  by_cases hm : h ∈ g.handles <;> simp [hm, suspended_in_append, suspended_in]

theorem task_suspend_resumed_in (h : TaskHandle) (g : Sys) :
    resumed_in (task_suspend h g).log = resumed_in g.log := by
  unfold task_suspend
  by_cases hm : h ∈ g.handles <;> simp [hm, resumed_in_append, resumed_in]

theorem task_resume_suspended_in (h : TaskHandle) (g : Sys) :
    suspended_in (task_resume h g).log = suspended_in g.log := by
  unfold task_resume
  by_cases hm : h ∈ g.handles <;> simp [hm, suspended_in_append, suspended_in]

theorem task_resume_resumed_in (h : TaskHandle) (g : Sys) :
    resumed_in (task_resume h g).log
      = resumed_in g.log ++ [h].filter (fun t => decide (t ∈ g.handles)) := by
  unfold task_resume
  by_cases hm : h ∈ g.handles <;> simp [hm, resumed_in_append, resumed_in]

theorem console_suspend_handles (w : Bool) (g : Sys) :
    (console_suspend w g).handles = g.handles := by
  unfold console_suspend
  cases w <;> simp [task_suspend_handles]

theorem console_suspend_suspended_in (w : Bool) (g : Sys) :
    suspended_in (console_suspend w g).log
      = suspended_in g.log ++ console_targets g.handles := by
  have e : suspended_in (console_suspend w g).log
      = suspended_in (task_suspend .send_data_handle (task_suspend .key_register_handle
          (task_suspend .sleep_task_handle (task_suspend .sensor_task_handle
            (task_suspend .wifi_task_handle g))))).log := by
    unfold console_suspend
    cases w <;> simp [suspended_in_append, suspended_in]
  have t : console_targets g.handles
      = ([TaskHandle.wifi_task_handle] ++ ([TaskHandle.sensor_task_handle]
          ++ ([TaskHandle.sleep_task_handle] ++ ([TaskHandle.key_register_handle]
          ++ [TaskHandle.send_data_handle])))).filter (fun h => decide (h ∈ g.handles)) := rfl
  rw [e, t]
  simp only [task_suspend_suspended_in, task_suspend_handles, List.filter_append,
    List.append_assoc]

theorem console_suspend_resumed_in (w : Bool) (g : Sys) :
    resumed_in (console_suspend w g).log = resumed_in g.log := by
  have e : resumed_in (console_suspend w g).log
      = resumed_in (task_suspend .send_data_handle (task_suspend .key_register_handle
          (task_suspend .sleep_task_handle (task_suspend .sensor_task_handle
            (task_suspend .wifi_task_handle g))))).log := by
    unfold console_suspend
    cases w <;> simp [resumed_in_append, resumed_in]
  rw [e]
  simp only [task_suspend_resumed_in]

theorem console_resume_suspended_in (w : Bool) (g : Sys) :
    suspended_in (console_resume w g).log = suspended_in g.log := by
  unfold console_resume
  cases w
  · simp only [task_resume_suspended_in, Bool.false_eq_true, if_false]
  · simp only [task_resume_suspended_in, if_true, suspended_in_append]
    simp [suspended_in]

theorem console_resume_resumed_in (w : Bool) (g : Sys) :
    resumed_in (console_resume w g).log
      = resumed_in g.log ++ (console_targets g.handles).reverse := by
  have t : (console_targets g.handles).reverse
      = ([TaskHandle.send_data_handle] ++ ([TaskHandle.key_register_handle]
          ++ ([TaskHandle.sleep_task_handle] ++ ([TaskHandle.sensor_task_handle]
          ++ [TaskHandle.wifi_task_handle])))).filter (fun h => decide (h ∈ g.handles)) := by
    unfold console_targets
    rw [← List.filter_reverse]
    rfl
  rw [t]
  unfold console_resume
  cases w
  · simp only [task_resume_resumed_in, task_resume_handles, List.filter_append,
      List.append_assoc, Bool.false_eq_true, if_false]
  · simp only [task_resume_resumed_in, task_resume_handles, List.filter_append,
      List.append_assoc, if_true, resumed_in_append]
    simp [resumed_in]

theorem update_time_not_console_target (handles : List TaskHandle) :
    TaskHandle.update_time_handle ∉ console_targets handles := by
  unfold console_targets
  intro h
  have h' := (List.mem_filter.mp h).1
  revert h'
  decide

/-- C8: what `enter_console_task` does on the interrupt character.  In every
state the tasks it resumes are the tasks it suspended, in reverse order, and
the time update task is never among them; in the measurement graph, where all
seven handles are set, it suspends the wifi, sensor, sleep, key registration
and send tasks and leaves the time update task running. -/
theorem console_leaves_update_time_running :
    (∀ (g : Sys) (c : Nat) (w1 w2 : Bool), c = 0x03 ∨ c = 0x15 →
      ∃ l : List TaskHandle,
        suspended_in (enter_console_task c w1 w2 g).log = suspended_in g.log ++ l ∧
        resumed_in (enter_console_task c w1 w2 g).log = resumed_in g.log ++ l.reverse ∧
        TaskHandle.update_time_handle ∉ l) ∧
    measurement_graph.handles
      = [.wifi_task_handle, .console_handle, .sensor_task_handle, .sleep_task_handle,
         .key_register_handle, .send_data_handle, .update_time_handle] ∧
    suspended_in (enter_console_task 0x03 true true measurement_graph).log
      = [.wifi_task_handle, .sensor_task_handle, .sleep_task_handle,
         .key_register_handle, .send_data_handle] ∧
    resumed_in (enter_console_task 0x03 true true measurement_graph).log
      = [.send_data_handle, .key_register_handle, .sleep_task_handle,
         .sensor_task_handle, .wifi_task_handle] ∧
    runnable (console_suspend true measurement_graph) .update_time_handle = true := by
  refine ⟨?_, by decide, by decide, by decide, by decide⟩
  intro g c w1 w2 hc
  refine ⟨console_targets g.handles, ?_, ?_, update_time_not_console_target _⟩
  · simp only [enter_console_task, hc, if_true, console_resume_suspended_in,
      console_suspend_suspended_in]
  · simp only [enter_console_task, hc, if_true, console_resume_resumed_in,
      console_suspend_resumed_in, console_suspend_handles]

/-! ## Persisted status -/

/-- C6: round trip of the persisted status.  If the sleep task, with
`MAIN_SLEEP_READY` raised, saves the status and the next boot (any RAM content,
the store as the sleep task left it) is a timer wake whose `kv_load` succeeds,
then the status after wake classification equals the saved one in every
field; and without an I/O fault the load does succeed. -/
theorem status_round_trip (g next : Sys) (store_fault load_fault : Bool)
    (hready : bits_set g.main_event_group MAIN_SLEEP_READY = true)
    (hsaved : (sleep_task store_fault g).aborted = false)
    (hkv : next.kv = (sleep_task store_fault g).kv) :
    (∀ r, get_wakeup_reason .ESP_SLEEP_WAKEUP_TIMER load_fault next = .ok r →
      r.status = g.status) ∧
    (load_fault = false →
      get_wakeup_reason .ESP_SLEEP_WAKEUP_TIMER load_fault next
        = .ok { next with status := g.status }) := by
  have hf : store_fault = false := by
    cases store_fault
    · rfl
    · simp [sleep_task, hready, kv_store] at hsaved
  subst hf
  have hk : next.kv = ("status-region", "status-key", Blob.status_obj g.status) :: g.kv := by
    rw [hkv]; simp [sleep_task, hready, kv_store]
  constructor
  · intro r hr
    cases load_fault
    · simp [get_wakeup_reason, kv_load, hk, kv_find] at hr
      rw [← hr]
    · simp [get_wakeup_reason, kv_load] at hr
  · intro hl
    subst hl
    simp [get_wakeup_reason, kv_load, hk, kv_find]

theorem status_round_trip_witness :
    get_wakeup_reason .ESP_SLEEP_WAKEUP_TIMER false (boot (sleep_task false ready_to_sleep).kv)
      = .ok { boot (sleep_task false ready_to_sleep).kv with status := ready_to_sleep.status } :=
  (status_round_trip ready_to_sleep (boot (sleep_task false ready_to_sleep).kv) false false
    (by decide) (by decide) rfl).2 rfl

/-! ## Event bits -/

theorem bits_set_or_disjoint (b m k : Nat) (h : m &&& k = 0) :
    bits_set (b ||| m) k = bits_set b k := by
  unfold bits_set; rw [or_and_disjoint b m k h]

theorem bits_set_or_same (b m : Nat) (h : m ≠ 0) : bits_set (b ||| m) m = true := by
  unfold bits_set; rw [or_and_same]; simpa using h

theorem bits_set_or_mono (b m k : Nat) (h : bits_set b k = true) :
    bits_set (b ||| m) k = true := by
  unfold bits_set at *
  simp only [bne_iff_ne, ne_eq] at *
  intro h0
  apply h
  apply Nat.eq_of_testBit_eq; intro i
  have hi := congrArg (fun x => x.testBit i) h0
  simp only [Nat.testBit_and, Nat.testBit_or, Nat.zero_testBit] at hi ⊢
  cases hb : b.testBit i <;> cases hk : k.testBit i <;> simp_all

theorem bits_set_zero (k : Nat) : bits_set 0 k = false := by
  simp [bits_set]

theorem sleep_or_send (b : Nat) :
    bits_set (b ||| MAIN_SEND_READY) MAIN_SLEEP_READY = bits_set b MAIN_SLEEP_READY :=
  bits_set_or_disjoint _ _ _ (by decide)

theorem sleep_or_time (b : Nat) :
    bits_set (b ||| MAIN_TIME_READY) MAIN_SLEEP_READY = bits_set b MAIN_SLEEP_READY :=
  bits_set_or_disjoint _ _ _ (by decide)

theorem send_or_sleep (b : Nat) :
    bits_set (b ||| MAIN_SLEEP_READY) MAIN_SEND_READY = bits_set b MAIN_SEND_READY :=
  bits_set_or_disjoint _ _ _ (by decide)

theorem send_or_time (b : Nat) :
    bits_set (b ||| MAIN_TIME_READY) MAIN_SEND_READY = bits_set b MAIN_SEND_READY :=
  bits_set_or_disjoint _ _ _ (by decide)

theorem time_or_sleep (b : Nat) :
    bits_set (b ||| MAIN_SLEEP_READY) MAIN_TIME_READY = bits_set b MAIN_TIME_READY :=
  bits_set_or_disjoint _ _ _ (by decide)

theorem time_or_send (b : Nat) :
    bits_set (b ||| MAIN_SEND_READY) MAIN_TIME_READY = bits_set b MAIN_TIME_READY :=
  bits_set_or_disjoint _ _ _ (by decide)

theorem sleep_or_sleep (b : Nat) : bits_set (b ||| MAIN_SLEEP_READY) MAIN_SLEEP_READY = true :=
  bits_set_or_same _ _ (by decide)

theorem send_or_send (b : Nat) : bits_set (b ||| MAIN_SEND_READY) MAIN_SEND_READY = true :=
  bits_set_or_same _ _ (by decide)

theorem time_or_time (b : Nat) : bits_set (b ||| MAIN_TIME_READY) MAIN_TIME_READY = true :=
  bits_set_or_same _ _ (by decide)

/-! ## Invariants of the running graph -/

theorem run_cons (g : Sys) (e : Event) (es : List Event) :
    run g (e :: es) = run (step g e) es := rfl

theorem run_append (g : Sys) (es1 es2 : List Event) :
    run g (es1 ++ es2) = run (run g es1) es2 := by
  simp [run, List.foldl_append]

theorem task_suspend_frame (h : TaskHandle) (g : Sys) :
    (task_suspend h g).status = g.status ∧
    (task_suspend h g).main_event_group = g.main_event_group ∧
    (task_suspend h g).eth_ready = g.eth_ready ∧ (task_suspend h g).sta_ready = g.sta_ready ∧
    (task_suspend h g).kv = g.kv ∧ (task_suspend h g).handles = g.handles ∧
    (task_suspend h g).deleted = g.deleted ∧
    (task_suspend h g).asleep = g.asleep ∧ (task_suspend h g).aborted = g.aborted := by
  unfold task_suspend; split <;> simp

theorem task_resume_frame (h : TaskHandle) (g : Sys) :
    (task_resume h g).status = g.status ∧
    (task_resume h g).main_event_group = g.main_event_group ∧
    (task_resume h g).eth_ready = g.eth_ready ∧ (task_resume h g).sta_ready = g.sta_ready ∧
    (task_resume h g).kv = g.kv ∧ (task_resume h g).handles = g.handles ∧
    (task_resume h g).deleted = g.deleted ∧
    (task_resume h g).asleep = g.asleep ∧ (task_resume h g).aborted = g.aborted := by
  unfold task_resume; split <;> simp

theorem console_suspend_frame (w : Bool) (g : Sys) :
    (console_suspend w g).status = g.status ∧
    (console_suspend w g).main_event_group = g.main_event_group ∧
    (console_suspend w g).eth_ready = g.eth_ready ∧
    (console_suspend w g).sta_ready = g.sta_ready ∧
    (console_suspend w g).kv = g.kv ∧ (console_suspend w g).handles = g.handles ∧
    (console_suspend w g).deleted = g.deleted ∧
    (console_suspend w g).asleep = g.asleep ∧ (console_suspend w g).aborted = g.aborted := by
  unfold console_suspend
  cases w <;> simp [task_suspend_frame]

theorem console_resume_frame (w : Bool) (g : Sys) :
    (console_resume w g).status = g.status ∧
    (console_resume w g).main_event_group = g.main_event_group ∧
    (console_resume w g).eth_ready = g.eth_ready ∧
    (console_resume w g).sta_ready = g.sta_ready ∧
    (console_resume w g).kv = g.kv ∧ (console_resume w g).handles = g.handles ∧
    (console_resume w g).deleted = g.deleted ∧
    (console_resume w g).asleep = g.asleep ∧ (console_resume w g).aborted = g.aborted := by
  unfold console_resume
  cases w <;> simp [task_resume_frame]
theorem task_suspend_log (h : TaskHandle) (g : Sys) :
    ∃ l, (task_suspend h g).log = g.log ++ l ∧ l.all console_call = true := by
  unfold task_suspend
  split
  · exact ⟨[.vTaskSuspend h], rfl, rfl⟩
  · exact ⟨[], by simp, rfl⟩

theorem task_resume_log (h : TaskHandle) (g : Sys) :
    ∃ l, (task_resume h g).log = g.log ++ l ∧ l.all console_call = true := by
  unfold task_resume
  split
  · exact ⟨[.vTaskResume h], rfl, rfl⟩
  · exact ⟨[], by simp, rfl⟩

theorem log_chain {g1 g2 g3 : Sys}
    (h12 : ∃ l, g2.log = g1.log ++ l ∧ l.all console_call = true)
    (h23 : ∃ l, g3.log = g2.log ++ l ∧ l.all console_call = true) :
    ∃ l, g3.log = g1.log ++ l ∧ l.all console_call = true := by
  obtain ⟨l1, e1, a1⟩ := h12
  obtain ⟨l2, e2, a2⟩ := h23
  refine ⟨l1 ++ l2, ?_, ?_⟩
  · rw [e2, e1, List.append_assoc]
  · rw [List.all_append, a1, a2]; rfl

theorem console_suspend_log (w : Bool) (g : Sys) :
    ∃ l, (console_suspend w g).log = g.log ++ l ∧ l.all console_call = true := by
  have h1 := task_suspend_log .wifi_task_handle g
  have h2 := log_chain h1 (task_suspend_log .sensor_task_handle _)
  have h3 := log_chain h2 (task_suspend_log .sleep_task_handle _)
  have h4 := log_chain h3 (task_suspend_log .key_register_handle _)
  have h5 := log_chain h4 (task_suspend_log .send_data_handle _)
  refine log_chain h5 ?_
  unfold console_suspend
  cases w
  · exact ⟨[.run_console], rfl, rfl⟩
  · exact ⟨[.rtc_wdt_protect_off, .run_console], by simp, rfl⟩

theorem console_resume_log (w : Bool) (g : Sys) :
    ∃ l, (console_resume w g).log = g.log ++ l ∧ l.all console_call = true := by
  have h0 : ∃ l, (if w then { g with log := g.log ++ [Call.rtc_wdt_protect_on] } else g).log
      = g.log ++ l ∧ l.all console_call = true := by
    cases w
    · exact ⟨[], by simp, rfl⟩
    · exact ⟨[.rtc_wdt_protect_on], rfl, rfl⟩
  have h1 := log_chain h0 (task_resume_log .send_data_handle _)
  have h2 := log_chain h1 (task_resume_log .key_register_handle _)
  have h3 := log_chain h2 (task_resume_log .sleep_task_handle _)
  have h4 := log_chain h3 (task_resume_log .sensor_task_handle _)
  have h5 := log_chain h4 (task_resume_log .wifi_task_handle _)
  unfold console_resume
  simp only []
  exact h5

theorem any_console_calls (p : Call → Bool) (hp : ∀ c, console_call c = true → p c = false)
    (l1 l2 : List Call) (h : l2.all console_call = true) :
    (l1 ++ l2).any p = l1.any p := by
  rw [List.any_append]
  have : l2.any p = false := by
    rw [List.any_eq_false]
    intro c hc
    have := List.all_eq_true.mp h c hc
    simp [hp c this]
  rw [this, Bool.or_false]

theorem has_calls_console {g1 g2 : Sys}
    (h : ∃ l, g2.log = g1.log ++ l ∧ l.all console_call = true) :
    has_send_message g2.log = has_send_message g1.log ∧
    has_sensor_read g2.log = has_sensor_read g1.log ∧
    has_plausible_clock g2.log = has_plausible_clock g1.log ∧
    has_network_ready g2.log = has_network_ready g1.log ∧
    has_sleep_call g2.log = has_sleep_call g1.log := by
  obtain ⟨l, e, a⟩ := h
  rw [e]
  refine ⟨?_, ?_, ?_, ?_, ?_⟩
  · apply any_console_calls _ _ _ _ a
    intro c hc
    cases c <;> first | rfl | (simp [console_call] at hc)
  · apply any_console_calls _ _ _ _ a
    intro c hc
    cases c <;> first | rfl | (simp [console_call] at hc)
  · apply any_console_calls _ _ _ _ a
    intro c hc
    cases c <;> first | rfl | (simp [console_call] at hc)
  · apply any_console_calls _ _ _ _ a
    intro c hc
    cases c <;> first | rfl | (simp [console_call] at hc)
  · apply any_console_calls _ _ _ _ a
    intro c hc
    cases c <;> first | rfl | (simp [console_call] at hc)

theorem signal_order_of_le (g1 g2 : Sys) (hb : g2.main_event_group = g1.main_event_group)
    (ha : g2.asleep = g1.asleep)
    (l1 : has_send_message g1.log = true → has_send_message g2.log = true)
    (l2 : has_sensor_read g1.log = true → has_sensor_read g2.log = true)
    (l3 : has_plausible_clock g1.log = true → has_plausible_clock g2.log = true)
    (l4 : has_network_ready g1.log = true → has_network_ready g2.log = true)
    (l5 : has_sleep_call g2.log = has_sleep_call g1.log)
    (h : signal_order g1) : signal_order g2 := by
  unfold signal_order at *
  rw [hb, ha, l5]
  obtain ⟨h1, h2, h3, h4⟩ := h
  exact ⟨fun hs => ⟨(h1 hs).1, l1 (h1 hs).2⟩, fun hs => ⟨(h2 hs).1, l2 (h2 hs).2⟩,
    fun ht => ⟨l4 (h3 ht).1, l3 (h3 ht).2⟩, h4⟩

theorem signal_order_of_eq (g1 g2 : Sys) (hb : g2.main_event_group = g1.main_event_group)
    (ha : g2.asleep = g1.asleep)
    (hl : has_send_message g2.log = has_send_message g1.log ∧
      has_sensor_read g2.log = has_sensor_read g1.log ∧
      has_plausible_clock g2.log = has_plausible_clock g1.log ∧
      has_network_ready g2.log = has_network_ready g1.log ∧
      has_sleep_call g2.log = has_sleep_call g1.log)
    (h : signal_order g1) : signal_order g2 :=
  signal_order_of_le g1 g2 hb ha (fun x => hl.1 ▸ x) (fun x => hl.2.1 ▸ x) (fun x => hl.2.2.1 ▸ x)
    (fun x => hl.2.2.2.1 ▸ x) hl.2.2.2.2 h

theorem has_send_message_append (l1 l2 : List Call) :
    has_send_message (l1 ++ l2) = (has_send_message l1 || has_send_message l2) := by
  simp [has_send_message, List.any_append]

theorem has_sensor_read_append (l1 l2 : List Call) :
    has_sensor_read (l1 ++ l2) = (has_sensor_read l1 || has_sensor_read l2) := by
  simp [has_sensor_read, List.any_append]

theorem has_plausible_clock_append (l1 l2 : List Call) :
    has_plausible_clock (l1 ++ l2) = (has_plausible_clock l1 || has_plausible_clock l2) := by
  simp [has_plausible_clock, List.any_append]

theorem has_network_ready_append (l1 l2 : List Call) :
    has_network_ready (l1 ++ l2) = (has_network_ready l1 || has_network_ready l2) := by
  simp [has_network_ready, List.any_append]

theorem has_sleep_call_append (l1 l2 : List Call) :
    has_sleep_call (l1 ++ l2) = (has_sleep_call l1 || has_sleep_call l2) := by
  simp [has_sleep_call, List.any_append]

theorem signal_order_sleep_task (f : Bool) (g : Sys) (h : signal_order g) :
    signal_order (sleep_task f g) := by
  unfold sleep_task
  split
  · rename_i hb
    cases f
    · simp only [kv_store, Bool.false_eq_true, if_false]
      obtain ⟨h1, h2, h3, _⟩ := h
      refine ⟨fun _ => ?_, fun hs => ?_, fun ht => ?_, fun _ => hb⟩
      · exact ⟨(h1 hb).1, by simp [has_send_message_append, (h1 hb).2]⟩
      · exact ⟨(h2 hs).1, by simp [has_sensor_read_append, (h2 hs).2]⟩
      · exact ⟨by simp [has_network_ready_append, (h3 ht).1],
          by simp [has_plausible_clock_append, (h3 ht).2]⟩
    · simp only [kv_store, if_true]
      exact h
  · exact h

theorem signal_order_send_data_task (g : Sys) (h : signal_order g) :
    signal_order (send_data_task g) := by
  unfold send_data_task
  split
  · rename_i hb
    obtain ⟨_, h2, h3, _⟩ := h
    simp only [task_delete, set_main_bits]
    refine ⟨fun _ => ?_, fun _ => ?_, fun ht => ?_, fun _ => ?_⟩
    · simp only [send_or_sleep]
      exact ⟨hb, by simp [has_send_message_append, has_send_message]⟩
    · simp only [time_or_sleep]
      exact ⟨(h2 hb).1, by simp [has_sensor_read_append, (h2 hb).2]⟩
    · simp only [time_or_sleep] at ht
      exact ⟨by simp [has_network_ready_append, (h3 ht).1],
        by simp [has_plausible_clock_append, (h3 ht).2]⟩
    · exact sleep_or_sleep _
  · exact h

theorem signal_order_sensor_task (hall temperature : Nat) (g : Sys) (h : signal_order g) :
    signal_order (sensor_task hall temperature g) := by
  unfold sensor_task
  split
  · rename_i hb
    obtain ⟨h1, _, h3, h4⟩ := h
    simp only [task_delete, set_main_bits]
    refine ⟨fun hs => ?_, fun _ => ?_, fun _ => ?_, fun hs => ?_⟩
    · simp only [sleep_or_send] at hs
      exact ⟨send_or_send _, by simp [has_send_message_append, (h1 hs).2]⟩
    · simp only [time_or_send]
      exact ⟨hb, by simp [has_sensor_read_append, has_sensor_read]⟩
    · exact ⟨by simp [has_network_ready_append, (h3 hb).1],
        by simp [has_plausible_clock_append, (h3 hb).2]⟩
    · simp only [sleep_or_send]
      apply h4
      rcases hs with hs | hs
      · exact Or.inl hs
      · right
        simpa [has_sleep_call_append, has_sleep_call] using hs
  · exact h

theorem signal_order_wifi_task (f j : Bool) (g : Sys) (h : signal_order g) :
    signal_order (wifi_task f j g) := by
  unfold wifi_task
  split
  · refine signal_order_of_eq g _ rfl rfl ?_ h
    simp [task_delete, has_send_message_append, has_sensor_read_append,
      has_plausible_clock_append, has_network_ready_append, has_sleep_call_append,
      has_send_message, has_sensor_read, has_plausible_clock, has_network_ready, has_sleep_call]
  · refine signal_order_of_eq g _ rfl rfl ?_ h
    simp [task_delete, has_send_message_append, has_sensor_read_append,
      has_plausible_clock_append, has_network_ready_append, has_sleep_call_append,
      has_send_message, has_sensor_read, has_plausible_clock, has_network_ready, has_sleep_call]

theorem signal_order_key_register_task (r : Bool) (g : Sys) (h : signal_order g) :
    signal_order (key_register_task r g) := by
  unfold key_register_task
  split
  · refine signal_order_of_eq g _ ?_ ?_ ?_ h
    · simp only [task_delete]; split <;> rfl
    · simp only [task_delete]; split <;> rfl
    · simp only [task_delete]
      split <;>
      simp [has_send_message_append, has_sensor_read_append,
        has_plausible_clock_append, has_network_ready_append, has_sleep_call_append,
        has_send_message, has_sensor_read, has_plausible_clock, has_network_ready,
        has_sleep_call]
  · exact h
theorem signal_order_update_time_task (c y : Int) (g : Sys) (h : signal_order g) :
    signal_order (update_time_task c y g) := by
  unfold update_time_task
  split
  · rename_i hnet
    simp only []
    split
    · rename_i hy
      obtain ⟨h1, h2, _, h4⟩ := h
      simp only [task_delete, set_main_bits]
      refine ⟨fun hs => ?_, fun hs => ?_, fun _ => ?_, fun hs => ?_⟩
      · simp only [sleep_or_time] at hs
        simp only [send_or_time]
        exact ⟨(h1 hs).1, by simp [has_send_message_append, (h1 hs).2]⟩
      · simp only [send_or_time] at hs
        exact ⟨time_or_time _, by simp [has_sensor_read_append, (h2 hs).2]⟩
      · constructor
        · simp only [has_network_ready_append]
          have : has_network_ready [Call.network_wait g.eth_ready g.sta_ready,
              Call.localtime_r c y] = true := by
            simpa [has_network_ready] using hnet
          simp [this]
        · simp only [has_plausible_clock_append]
          have : has_plausible_clock [Call.network_wait g.eth_ready g.sta_ready,
              Call.localtime_r c y] = true := by
            simp only [has_plausible_clock, List.any_cons, List.any_nil, Bool.or_false,
              Bool.false_or, decide_eq_true_eq]
            exact hy
          simp [this]
      · simp only [sleep_or_time]
        apply h4
        rcases hs with hs | hs
        · exact Or.inl hs
        · right
          simpa [has_sleep_call_append, has_sleep_call] using hs
    · rename_i hy
      have hp : has_plausible_clock [Call.network_wait g.eth_ready g.sta_ready,
          Call.localtime_r c y] = false := by
        simp only [has_plausible_clock, List.any_cons, List.any_nil, Bool.or_false,
          Bool.false_or, decide_eq_false_iff_not]
        exact hy
      split
      · refine signal_order_of_le g _ rfl rfl ?_ ?_ ?_ ?_ ?_ h
        · intro x; simp [has_send_message_append, x]
        · intro x; simp [has_sensor_read_append, x]
        · intro x; simp [has_plausible_clock_append, x]
        · intro x; simp [has_network_ready_append, x]
        · simp [has_sleep_call_append, has_sleep_call]
      · refine signal_order_of_le g _ rfl rfl ?_ ?_ ?_ ?_ ?_ h
        · intro x; simp [has_send_message_append, x]
        · intro x; simp [has_sensor_read_append, x]
        · intro x; simp [has_plausible_clock_append, x]
        · intro x; simp [has_network_ready_append, x]
        · simp [has_sleep_call_append, has_sleep_call]
  · exact h

theorem signal_order_console_suspend (w : Bool) (g : Sys) (h : signal_order g) :
    signal_order (console_suspend w g) :=
  signal_order_of_eq g _ (console_suspend_frame w g).2.1 (console_suspend_frame w g).2.2.2.2.2.2.2.1
    (has_calls_console (console_suspend_log w g)) h

theorem signal_order_console_resume (w : Bool) (g : Sys) (h : signal_order g) :
    signal_order (console_resume w g) :=
  signal_order_of_eq g _ (console_resume_frame w g).2.1 (console_resume_frame w g).2.2.2.2.2.2.2.1
    (has_calls_console (console_resume_log w g)) h

theorem runnable_of_not_handle (g : Sys) (t : TaskHandle) (h : t ∉ g.handles) :
    runnable g t = false := by
  simp [runnable, h]

/-- Every task body leaves the handle variables as they are. -/
theorem step_handles (g : Sys) (e : Event) : (step g e).handles = g.handles := by
  unfold step
  split
  · rfl
  · cases e <;> simp only []
    · split
      · unfold sleep_task; split
        · cases ‹Bool› <;> simp [kv_store]
        · rfl
      · rfl
    · split
      · unfold send_data_task; split <;> rfl
      · rfl
    · split
      · unfold sensor_task; split <;> rfl
      · rfl
    · split
      · unfold wifi_task; split <;> rfl
      · rfl
    · split
      · exact (console_suspend_frame _ _).2.2.2.2.2.1
      · rfl
    · split
      · exact (console_resume_frame _ _).2.2.2.2.2.1
      · rfl
    · split
      · unfold update_time_task; split
        · simp only []; split
          · rfl
          · split <;> rfl
        · rfl
      · rfl
    · split
      · unfold ota_task; split <;> rfl
      · rfl
    · split
      · unfold key_register_task; split
        · simp only [task_delete]; split <;> rfl
        · rfl
      · rfl

theorem signal_order_step (g : Sys) (e : Event) (hota : TaskHandle.ota_task_handle ∉ g.handles)
    (h : signal_order g) : signal_order (step g e) := by
  unfold step
  split
  · exact h
  · cases e <;> simp only []
    · exact signal_order_of_eq g _ rfl rfl ⟨rfl, rfl, rfl, rfl, rfl⟩ h
    · exact signal_order_of_eq g _ rfl rfl ⟨rfl, rfl, rfl, rfl, rfl⟩ h
    · exact signal_order_of_eq g _ rfl rfl ⟨rfl, rfl, rfl, rfl, rfl⟩ h
    · exact signal_order_of_eq g _ rfl rfl ⟨rfl, rfl, rfl, rfl, rfl⟩ h
    · split
      · exact signal_order_sleep_task _ g h
      · exact h
    · split
      · exact signal_order_send_data_task g h
      · exact h
    · split
      · exact signal_order_sensor_task _ _ g h
      · exact h
    · split
      · exact signal_order_wifi_task _ _ g h
      · exact h
    · split
      · exact signal_order_console_suspend _ g h
      · exact h
    · split
      · exact signal_order_console_resume _ g h
      · exact h
    · split
      · exact signal_order_update_time_task _ _ g h
      · exact h
    · rw [runnable_of_not_handle g _ hota]
      simpa using h
    · split
      · exact signal_order_key_register_task _ g h
      · exact h

theorem signal_order_run (g : Sys) (es : List Event)
    (hota : TaskHandle.ota_task_handle ∉ g.handles) (h : signal_order g) :
    signal_order (run g es) := by
  induction es generalizing g with
  | nil => exact h
  | cons e es ih =>
    rw [run_cons]
    exact ih (step g e) (by rw [step_handles]; exact hota) (signal_order_step g e hota h)

/-- No step clears a bit of the main event group. -/
theorem step_bits_mono (g : Sys) (e : Event) (m : Nat)
    (h : bits_set g.main_event_group m = true) :
    bits_set (step g e).main_event_group m = true := by
  unfold step
  split
  · exact h
  · cases e <;> simp only []
    · exact h
    · exact h
    · exact h
    · exact h
    · split
      · unfold sleep_task; split
        · cases ‹Bool› <;> simpa [kv_store] using h
        · exact h
      · exact h
    · split
      · unfold send_data_task; split
        · exact bits_set_or_mono _ _ _ h
        · exact h
      · exact h
    · split
      · unfold sensor_task; split
        · exact bits_set_or_mono _ _ _ h
        · exact h
      · exact h
    · split
      · unfold wifi_task; split <;> exact h
      · exact h
    · split
      · rw [(console_suspend_frame _ _).2.1]; exact h
      · exact h
    · split
      · rw [(console_resume_frame _ _).2.1]; exact h
      · exact h
    · split
      · unfold update_time_task; split
        · simp only []; split
          · exact bits_set_or_mono _ _ _ h
          · split <;> exact h
        · exact h
      · exact h
    · split
      · unfold ota_task; split
        · exact bits_set_or_mono _ _ _ h
        · exact h
      · exact h
    · split
      · unfold key_register_task; split
        · simp only [task_delete]; split <;> exact h
        · exact h
      · exact h

theorem run_bits_mono (g : Sys) (es : List Event) (m : Nat)
    (h : bits_set g.main_event_group m = true) :
    bits_set (run g es).main_event_group m = true := by
  induction es generalizing g with
  | nil => exact h
  | cons e es ih => rw [run_cons]; exact ih _ (step_bits_mono g e m h)

theorem sleep_call_step (g : Sys) (e : Event) (h : has_sleep_call (step g e).log = true) :
    has_sleep_call g.log = true ∨ bits_set g.main_event_group MAIN_SLEEP_READY = true := by
  unfold step at h
  split at h
  · exact Or.inl h
  · cases e <;> simp only [] at h
    · exact Or.inl h
    · exact Or.inl h
    · exact Or.inl h
    · exact Or.inl h
    · split at h
      · unfold sleep_task at h
        split at h
        · rename_i hb; exact Or.inr hb
        · exact Or.inl h
      · exact Or.inl h
    · split at h
      · unfold send_data_task at h
        split at h
        · left; simpa [task_delete, set_main_bits, has_sleep_call_append, has_sleep_call] using h
        · exact Or.inl h
      · exact Or.inl h
    · split at h
      · unfold sensor_task at h
        split at h
        · left; simpa [task_delete, set_main_bits, has_sleep_call_append, has_sleep_call] using h
        · exact Or.inl h
      · exact Or.inl h
    · split at h
      · unfold wifi_task at h
        split at h
        · left; simpa [task_delete, has_sleep_call_append, has_sleep_call] using h
        · left; simpa [task_delete, has_sleep_call_append, has_sleep_call] using h
      · exact Or.inl h
    · split at h
      · left; rw [(has_calls_console (console_suspend_log _ g)).2.2.2.2] at h; exact h
      · exact Or.inl h
    · split at h
      · left; rw [(has_calls_console (console_resume_log _ g)).2.2.2.2] at h; exact h
      · exact Or.inl h
    · split at h
      · unfold update_time_task at h
        split at h
        · simp only [] at h
          split at h
          · left
            simpa [task_delete, set_main_bits, has_sleep_call_append, has_sleep_call] using h
          · split at h
            · left; simpa [has_sleep_call_append, has_sleep_call] using h
            · left; simpa [has_sleep_call_append, has_sleep_call] using h
        · exact Or.inl h
      · exact Or.inl h
    · split at h
      · unfold ota_task at h
        split at h
        · left
          simpa [task_delete, set_main_bits, has_sleep_call_append, has_sleep_call] using h
        · exact Or.inl h
      · exact Or.inl h
    · split at h
      · unfold key_register_task at h
        split at h
        · simp only [task_delete] at h
          split at h
          · left; simpa [has_sleep_call_append, has_sleep_call] using h
          · left; simpa [has_sleep_call_append, has_sleep_call] using h
        · exact Or.inl h
      · exact Or.inl h

theorem sensor_schedule_frame (g : Sys) :
    (sensor_schedule g).status = g.status ∧
    (sensor_schedule g).main_event_group = g.main_event_group ∧
    (sensor_schedule g).eth_ready = g.eth_ready ∧ (sensor_schedule g).sta_ready = g.sta_ready ∧
    (sensor_schedule g).kv = g.kv ∧
    (sensor_schedule g).handles = g.handles ++
      [.wifi_task_handle, .console_handle, .sensor_task_handle, .sleep_task_handle,
       .key_register_handle, .send_data_handle, .update_time_handle] ∧
    (sensor_schedule g).deleted = g.deleted ∧
    (sensor_schedule g).asleep = g.asleep ∧ (sensor_schedule g).aborted = g.aborted ∧
    (sensor_schedule g).log = g.log ++
      [.xTaskCreate .wifi_task_handle, .xTaskCreate .console_handle,
       .xTaskCreate .sensor_task_handle, .xTaskCreate .sleep_task_handle,
       .xTaskCreate .key_register_handle, .xTaskCreate .send_data_handle,
       .xTaskCreate .update_time_handle] := by
  simp [sensor_schedule, task_create]

theorem signal_order_sensor_schedule (g : Sys) (hclear : g.main_event_group = 0)
    (hawake : g.asleep = false) (hlog : has_sleep_call g.log = false) :
    signal_order (sensor_schedule g) := by
  have hf := sensor_schedule_frame g
  unfold signal_order
  rw [hf.2.1, hclear, hf.2.2.2.2.2.2.2.1, hawake, hf.2.2.2.2.2.2.2.2.2]
  have hx : has_sleep_call [Call.xTaskCreate TaskHandle.wifi_task_handle,
      Call.xTaskCreate TaskHandle.console_handle, Call.xTaskCreate TaskHandle.sensor_task_handle,
      Call.xTaskCreate TaskHandle.sleep_task_handle,
      Call.xTaskCreate TaskHandle.key_register_handle,
      Call.xTaskCreate TaskHandle.send_data_handle,
      Call.xTaskCreate TaskHandle.update_time_handle] = false := rfl
  simp [bits_set_zero, has_sleep_call_append, hlog, hx]

/-! ## Signal order of the measurement graph -/

/-- C10: signal order of the measurement graph.  Start `sensor_schedule` in a
state with all main bits clear, not asleep, an empty log and no firmware update
task.  Then in every reachable state `MAIN_SLEEP_READY` implies
`MAIN_SEND_READY`, which implies `MAIN_TIME_READY`, which implies that a wait on
the network group returned with a bit raised and that a clock reading of year
2019 or later was taken; once the status was stored or deep sleep entered, the
sensor has been read and `send_message` called, and both calls are already in
the log before the step that stores; and a bit raised at some point of a run is
raised at every later point. -/
theorem measurement_signal_order (g0 : Sys) (es later : List Event) (e : Event) (m : Nat)
    (hclear : g0.main_event_group = 0) (hawake : g0.asleep = false)
    (hlog : g0.log = []) (hota : TaskHandle.ota_task_handle ∉ g0.handles) :
    (bits_set (run (sensor_schedule g0) es).main_event_group MAIN_SLEEP_READY = true →
      bits_set (run (sensor_schedule g0) es).main_event_group MAIN_SEND_READY = true) ∧
    (bits_set (run (sensor_schedule g0) es).main_event_group MAIN_SEND_READY = true →
      bits_set (run (sensor_schedule g0) es).main_event_group MAIN_TIME_READY = true) ∧
    (bits_set (run (sensor_schedule g0) es).main_event_group MAIN_TIME_READY = true →
      has_network_ready (run (sensor_schedule g0) es).log = true ∧
      has_plausible_clock (run (sensor_schedule g0) es).log = true) ∧
    (((run (sensor_schedule g0) es).asleep = true ∨
        has_sleep_call (run (sensor_schedule g0) es).log = true) →
      has_sensor_read (run (sensor_schedule g0) es).log = true ∧
      has_send_message (run (sensor_schedule g0) es).log = true) ∧
    (has_sleep_call (run (sensor_schedule g0) es).log = false →
      has_sleep_call (step (run (sensor_schedule g0) es) e).log = true →
      has_sensor_read (run (sensor_schedule g0) es).log = true ∧
      has_send_message (run (sensor_schedule g0) es).log = true) ∧
    (bits_set (run (sensor_schedule g0) es).main_event_group m = true →
      bits_set (run (sensor_schedule g0) (es ++ later)).main_event_group m = true) := by
  have hota' : TaskHandle.ota_task_handle ∉ (sensor_schedule g0).handles := by
    rw [(sensor_schedule_frame g0).2.2.2.2.2.1]
    simp [hota]
  have h0 : signal_order (sensor_schedule g0) :=
    signal_order_sensor_schedule g0 hclear hawake (by rw [hlog]; rfl)
  have h := signal_order_run (sensor_schedule g0) es hota' h0
  obtain ⟨h1, h2, h3, h4⟩ := h
  refine ⟨fun hs => (h1 hs).1, fun hs => (h2 hs).1, h3, fun hs => ?_, fun hn hs => ?_,
    fun hb => by rw [run_append]; exact run_bits_mono _ later m hb⟩
  · have hb := h4 hs
    exact ⟨(h2 (h1 hb).1).2, (h1 hb).2⟩
  · rcases sleep_call_step _ e hs with hc | hb
    · rw [hn] at hc; exact absurd hc (by decide)
    · exact ⟨(h2 (h1 hb).1).2, (h1 hb).2⟩

theorem measurement_signal_order_witness :
    has_sensor_read (run (sensor_schedule scenario_status)
        [.raise_sta_ready, .run_update_time 1600000000 120, .run_sensor 7 9,
         .run_send_data, .run_sleep false]).log = true ∧
      has_send_message (run (sensor_schedule scenario_status)
        [.raise_sta_ready, .run_update_time 1600000000 120, .run_sensor 7 9,
         .run_send_data, .run_sleep false]).log = true :=
  (measurement_signal_order scenario_status
    [.raise_sta_ready, .run_update_time 1600000000 120, .run_sensor 7 9, .run_send_data,
     .run_sleep false] []
    (.run_sleep false) MAIN_SLEEP_READY rfl rfl rfl (by decide)).2.2.2.1 (Or.inl (by decide))
/-! ## A measurement graph without network -/

theorem sleep_task_blocked (f : Bool) (g : Sys)
    (h : bits_set g.main_event_group MAIN_SLEEP_READY = false) : sleep_task f g = g := by
  simp [sleep_task, h]

theorem send_data_task_blocked (g : Sys)
    (h : bits_set g.main_event_group MAIN_SEND_READY = false) : send_data_task g = g := by
  simp [send_data_task, h]

theorem sensor_task_blocked (hall temperature : Nat) (g : Sys)
    (h : bits_set g.main_event_group MAIN_TIME_READY = false) :
    sensor_task hall temperature g = g := by
  simp [sensor_task, h]

theorem key_register_task_blocked (r : Bool) (g : Sys)
    (h : bits_set g.main_event_group MAIN_TIME_READY = false) :
    key_register_task r g = g := by
  simp [key_register_task, h]

theorem update_time_task_blocked (c y : Int) (g : Sys) (heth : g.eth_ready = false)
    (hsta : g.sta_ready = false) : update_time_task c y g = g := by
  simp [update_time_task, heth, hsta]

theorem ota_task_blocked (g : Sys) (heth : g.eth_ready = false)
    (hsta : g.sta_ready = false) : ota_task g = g := by
  simp [ota_task, heth, hsta]

/-- With all main bits clear and both network bits clear, a step that does not
raise a network bit changes neither bits, status nor store, and makes none of
the calls of the send task or of the sleep task; only the wifi task can
delete itself. -/
theorem quiet_step (g : Sys) (e : Event) (hmain : g.main_event_group = 0)
    (heth : g.eth_ready = false) (hsta : g.sta_ready = false)
    (hne : e.is_net_raise = false) :
    (step g e).main_event_group = 0 ∧ (step g e).eth_ready = false ∧
    (step g e).sta_ready = false ∧ (step g e).status = g.status ∧ (step g e).kv = g.kv ∧
    (step g e).asleep = g.asleep ∧ (step g e).aborted = g.aborted ∧
    has_send_message (step g e).log = has_send_message g.log ∧
    has_sleep_call (step g e).log = has_sleep_call g.log ∧
    (∀ t, t ∈ (step g e).deleted → t ∈ g.deleted ∨ t = TaskHandle.wifi_task_handle) := by
  have triv : g.main_event_group = 0 ∧ g.eth_ready = false ∧
      g.sta_ready = false ∧ g.status = g.status ∧ g.kv = g.kv ∧
      g.asleep = g.asleep ∧ g.aborted = g.aborted ∧
      has_send_message g.log = has_send_message g.log ∧
      has_sleep_call g.log = has_sleep_call g.log ∧
      (∀ t, t ∈ g.deleted → t ∈ g.deleted ∨ t = TaskHandle.wifi_task_handle) :=
    ⟨hmain, heth, hsta, rfl, rfl, rfl, rfl, rfl, rfl, fun _ h => Or.inl h⟩
  unfold step
  split
  · exact triv
  · cases e <;> simp only []
    · exact absurd hne (by decide)
    · exact absurd hne (by decide)
    · simp only [hmain, hsta, and_self, true_and]
      exact fun _ h => Or.inl h
    · simp only [hmain, heth, and_self, true_and]
      exact fun _ h => Or.inl h
    · split
      · rw [sleep_task_blocked _ g (by rw [hmain]; exact bits_set_zero _)]; exact triv
      · exact triv
    · split
      · rw [send_data_task_blocked g (by rw [hmain]; exact bits_set_zero _)]; exact triv
      · exact triv
    · split
      · rw [sensor_task_blocked _ _ g (by rw [hmain]; exact bits_set_zero _)]; exact triv
      · exact triv
    · split
      · unfold wifi_task
        split
        · refine ⟨hmain, heth, hsta, rfl, rfl, rfl, rfl, ?_, ?_, ?_⟩
          · simp [task_delete, has_send_message_append, has_send_message]
          · simp [task_delete, has_sleep_call_append, has_sleep_call]
          · intro t ht
            simp only [task_delete, List.mem_cons] at ht
            rcases ht with ht | ht
            · exact Or.inr ht
            · exact Or.inl ht
        · refine ⟨hmain, heth, hsta, rfl, rfl, rfl, rfl, ?_, ?_, ?_⟩
          · simp [task_delete, has_send_message_append, has_send_message]
          · simp [task_delete, has_sleep_call_append, has_sleep_call]
          · intro t ht
            simp only [task_delete, List.mem_cons] at ht
            rcases ht with ht | ht
            · exact Or.inr ht
            · exact Or.inl ht
      · exact triv
    · split
      · have hf := console_suspend_frame ‹Bool› g
        have hl := has_calls_console (console_suspend_log ‹Bool› g)
        refine ⟨hf.2.1.trans hmain, hf.2.2.1.trans heth, hf.2.2.2.1.trans hsta, hf.1,
          hf.2.2.2.2.1, hf.2.2.2.2.2.2.2.1, hf.2.2.2.2.2.2.2.2, hl.1, hl.2.2.2.2, ?_⟩
        intro t ht
        rw [hf.2.2.2.2.2.2.1] at ht
        exact Or.inl ht
      · exact triv
    · split
      · have hf := console_resume_frame ‹Bool› g
        have hl := has_calls_console (console_resume_log ‹Bool› g)
        refine ⟨hf.2.1.trans hmain, hf.2.2.1.trans heth, hf.2.2.2.1.trans hsta, hf.1,
          hf.2.2.2.2.1, hf.2.2.2.2.2.2.2.1, hf.2.2.2.2.2.2.2.2, hl.1, hl.2.2.2.2, ?_⟩
        intro t ht
        rw [hf.2.2.2.2.2.2.1] at ht
        exact Or.inl ht
      · exact triv
    · split
      · rw [update_time_task_blocked _ _ g heth hsta]; exact triv
      · exact triv
    · split
      · rw [ota_task_blocked g heth hsta]; exact triv
      · exact triv
    · split
      · rw [key_register_task_blocked _ g (by rw [hmain]; exact bits_set_zero _)]; exact triv
      · exact triv

theorem quiet_run (g : Sys) (es : List Event) (hmain : g.main_event_group = 0)
    (heth : g.eth_ready = false) (hsta : g.sta_ready = false)
    (hne : no_net_raise es = true) :
    (run g es).main_event_group = 0 ∧ (run g es).eth_ready = false ∧
    (run g es).sta_ready = false ∧ (run g es).status = g.status ∧ (run g es).kv = g.kv ∧
    (run g es).asleep = g.asleep ∧ (run g es).aborted = g.aborted ∧
    has_send_message (run g es).log = has_send_message g.log ∧
    has_sleep_call (run g es).log = has_sleep_call g.log ∧
    (∀ t, t ∈ (run g es).deleted → t ∈ g.deleted ∨ t = TaskHandle.wifi_task_handle) := by
  induction es generalizing g with
  | nil => exact ⟨hmain, heth, hsta, rfl, rfl, rfl, rfl, rfl, rfl, fun _ h => Or.inl h⟩
  | cons e es ih =>
    simp only [no_net_raise, List.all_cons, Bool.and_eq_true, Bool.not_eq_true',
      ] at hne
    obtain ⟨s1, s2, s3, s4, s5, s6, s7, s8, s9, s10⟩ := quiet_step g e hmain heth hsta hne.1
    obtain ⟨r1, r2, r3, r4, r5, r6, r7, r8, r9, r10⟩ :=
      ih (step g e) s1 s2 s3 (by simpa [no_net_raise] using hne.2)
    rw [run_cons]
    refine ⟨r1, r2, r3, r4.trans s4, r5.trans s5, r6.trans s6, r7.trans s7, r8.trans s8,
      r9.trans s9, ?_⟩
    intro t ht
    rcases r10 t ht with h | h
    · exact s10 t h
    · exact Or.inr h

/-- C7, as the code has it: in a measurement graph started with all main bits
and both network bits clear, as long as no network-ready bit is raised (in
particular when the wifi task finds no credentials) the send task never runs
its body and the sleep task never fires either: no main bit is raised, the
status, and with it `next_measurement_time`, and the store stay as they were at
the start of the graph, nothing is persisted and deep sleep is not entered. -/
theorem no_network_no_sleep (g0 : Sys) (es : List Event)
    (hmain : g0.main_event_group = 0) (heth : g0.eth_ready = false)
    (hsta : g0.sta_ready = false) (hawake : g0.asleep = false) (hlog : g0.log = [])
    (hdel : g0.deleted = []) (hne : no_net_raise es = true) :
    bits_set (run (sensor_schedule g0) es).main_event_group MAIN_SLEEP_READY = false ∧
    bits_set (run (sensor_schedule g0) es).main_event_group MAIN_SEND_READY = false ∧
    bits_set (run (sensor_schedule g0) es).main_event_group MAIN_TIME_READY = false ∧
    (run (sensor_schedule g0) es).status = g0.status ∧
    (run (sensor_schedule g0) es).status.next_measurement_time
      = g0.status.next_measurement_time ∧
    (run (sensor_schedule g0) es).kv = g0.kv ∧
    (run (sensor_schedule g0) es).asleep = false ∧
    has_send_message (run (sensor_schedule g0) es).log = false ∧
    has_sleep_call (run (sensor_schedule g0) es).log = false ∧
    TaskHandle.send_data_handle ∉ (run (sensor_schedule g0) es).deleted ∧
    TaskHandle.sleep_task_handle ∉ (run (sensor_schedule g0) es).deleted := by
  have hf := sensor_schedule_frame g0
  obtain ⟨r1, _, _, r4, r5, r6, _, r8, r9, r10⟩ :=
    quiet_run (sensor_schedule g0) es (hf.2.1.trans hmain) (hf.2.2.1.trans heth)
      (hf.2.2.2.1.trans hsta) hne
  have hd : (sensor_schedule g0).deleted = [] := hf.2.2.2.2.2.2.1.trans hdel
  refine ⟨by rw [r1]; exact bits_set_zero _, by rw [r1]; exact bits_set_zero _,
    by rw [r1]; exact bits_set_zero _, r4.trans hf.1, by rw [r4, hf.1], r5.trans hf.2.2.2.2.1,
    (r6.trans hf.2.2.2.2.2.2.2.1).trans hawake, ?_, ?_, ?_, ?_⟩
  · rw [r8, hf.2.2.2.2.2.2.2.2.2, hlog]; rfl
  · rw [r9, hf.2.2.2.2.2.2.2.2.2, hlog]; rfl
  · intro h
    rcases r10 _ h with h | h
    · rw [hd] at h; exact absurd h (List.not_mem_nil _)
    · exact absurd h (by decide)
  · intro h
    rcases r10 _ h with h | h
    · rw [hd] at h; exact absurd h (List.not_mem_nil _)
    · exact absurd h (by decide)

theorem no_network_no_sleep_witness :
    (run (sensor_schedule scenario_status)
        [.run_wifi false false, .run_update_time 1600000000 120, .run_sensor 7 9,
         .run_send_data, .run_sleep false]).asleep = false ∧
      has_sleep_call (run (sensor_schedule scenario_status)
        [.run_wifi false false, .run_update_time 1600000000 120, .run_sensor 7 9,
         .run_send_data, .run_sleep false]).log = false :=
  ⟨(no_network_no_sleep scenario_status
      [.run_wifi false false, .run_update_time 1600000000 120, .run_sensor 7 9,
       .run_send_data, .run_sleep false] rfl rfl rfl rfl rfl rfl (by decide)).2.2.2.2.2.2.1,
   (no_network_no_sleep scenario_status
      [.run_wifi false false, .run_update_time 1600000000 120, .run_sensor 7 9,
       .run_send_data, .run_sleep false] rfl rfl rfl rfl rfl rfl
      (by decide)).2.2.2.2.2.2.2.2.1⟩

/-- C7, counterexample: in the measurement graph of the scenario status, whose
store holds no wifi credentials, no run without a network-ready raise ever
raises `MAIN_SLEEP_READY`, persists the status or enters deep sleep. -/
theorem sleep_never_fires_without_network :
    kv_load false measurement_graph.kv "wifi_data" "wifi_ssid"
      = .error .ESP_ERR_NVS_NOT_FOUND ∧
    ¬ ∃ es : List Event, no_net_raise es = true ∧
      (bits_set (run measurement_graph es).main_event_group MAIN_SLEEP_READY = true ∨
       has_sleep_call (run measurement_graph es).log = true ∨
       (run measurement_graph es).asleep = true) := by
  refine ⟨rfl, ?_⟩
  rintro ⟨es, hne, h⟩
  obtain ⟨r1, _, _, _, _, r6, _, _, r9, _⟩ :=
    quiet_run measurement_graph es rfl rfl rfl hne
  rcases h with h | h | h
  · rw [r1, bits_set_zero] at h; exact absurd h (by decide)
  · rw [r9] at h; exact absurd h (by decide)
  · rw [r6] at h; exact absurd h (by decide)
/-! ## The cycle counter -/

theorem step_cycles (g : Sys) (e : Event) : (step g e).status.cycles = g.status.cycles := by
  unfold step
  split
  · rfl
  · cases e <;> simp only []
    · split
      · unfold sleep_task; split
        · cases ‹Bool› <;> simp [kv_store]
        · rfl
      · rfl
    · split
      · unfold send_data_task; split <;> rfl
      · rfl
    · split
      · unfold sensor_task; split <;> rfl
      · rfl
    · split
      · unfold wifi_task; split <;> rfl
      · rfl
    · split
      · rw [(console_suspend_frame _ _).1]
      · rfl
    · split
      · rw [(console_resume_frame _ _).1]
      · rfl
    · split
      · unfold update_time_task; split
        · simp only []; split
          · rfl
          · split <;> rfl
        · rfl
      · rfl
    · split
      · unfold ota_task; split <;> rfl
      · rfl
    · split
      · unfold key_register_task; split
        · simp only [task_delete]; split <;> rfl
        · rfl
      · rfl

/-- Once deep sleep is entered the store holds the status as it then is. -/
theorem step_persisted (g : Sys) (e : Event)
    (h : g.asleep = true →
      kv_find g.kv "status-region" "status-key" = some (.status_obj g.status)) :
    (step g e).asleep = true →
      kv_find (step g e).kv "status-region" "status-key"
        = some (.status_obj (step g e).status) := by
  unfold step
  split
  · exact h
  · rename_i hrun
    have hna : g.asleep = false := by
      cases ha : g.asleep
      · rfl
      · simp [ha] at hrun
    have no : ∀ g1 : Sys, g1.asleep = g.asleep → g1.asleep = true →
        kv_find g1.kv "status-region" "status-key" = some (.status_obj g1.status) := by
      intro g1 h1 h2
      rw [h1, hna] at h2
      exact absurd h2 (by decide)
    cases e <;> simp only []
    · exact no _ rfl
    · exact no _ rfl
    · exact no _ rfl
    · exact no _ rfl
    · split
      · unfold sleep_task; split
        · cases ‹Bool›
          · intro _
            simp [kv_store, kv_find]
          · exact no _ rfl
        · exact h
      · exact h
    · split
      · unfold send_data_task; split
        · exact no _ rfl
        · exact h
      · exact h
    · split
      · unfold sensor_task; split
        · exact no _ rfl
        · exact h
      · exact h
    · split
      · unfold wifi_task; split <;> exact no _ rfl
      · exact h
    · split
      · exact no _ (console_suspend_frame _ _).2.2.2.2.2.2.2.1
      · exact h
    · split
      · exact no _ (console_resume_frame _ _).2.2.2.2.2.2.2.1
      · exact h
    · split
      · unfold update_time_task; split
        · simp only []; split
          · exact no _ rfl
          · split <;> exact no _ rfl
        · exact h
      · exact h
    · split
      · unfold ota_task; split
        · exact no _ rfl
        · exact h
      · exact h
    · split
      · unfold key_register_task; split
        · simp only [task_delete]; split <;> exact no _ rfl
        · exact h
      · exact h

theorem run_cycles (g : Sys) (es : List Event) :
    (run g es).status.cycles = g.status.cycles := by
  induction es generalizing g with
  | nil => rfl
  | cons e es ih => rw [run_cons, ih, step_cycles]

theorem run_persisted (g : Sys) (es : List Event) (h : g.asleep = false) :
    (run g es).asleep = true →
      kv_find (run g es).kv "status-region" "status-key"
        = some (.status_obj (run g es).status) := by
  have gen : ∀ (es : List Event) (g : Sys),
      (g.asleep = true →
        kv_find g.kv "status-region" "status-key" = some (.status_obj g.status)) →
      (run g es).asleep = true →
        kv_find (run g es).kv "status-region" "status-key"
          = some (.status_obj (run g es).status) := by
    intro es
    induction es with
    | nil => intro g hg; exact hg
    | cons e es ih =>
      intro g hg
      rw [run_cons]
      exact ih (step g e) (step_persisted g e hg)
  exact gen es g (fun ha => by rw [h] at ha; exact absurd ha (by decide))

theorem check_schedule_frame (now : Int) (g : Sys) :
    (check_schedule now g).2.status = g.status ∧ (check_schedule now g).2.asleep = g.asleep := by
  unfold check_schedule
  split
  · simp [ota_schedule, task_create]
  · split
    · exact ⟨(sensor_schedule_frame g).1, (sensor_schedule_frame g).2.2.2.2.2.2.2.1⟩
    · simp [sleep_schedule, set_main_bits, task_create]

theorem get_wakeup_reason_frame (cause : esp_sleep_wakeup_cause_t) (f : Bool) (g g1 : Sys)
    (h : get_wakeup_reason cause f g = .ok g1) :
    g1.asleep = g.asleep ∧
    (cause = .ESP_SLEEP_WAKEUP_UNDEFINED → g1.status.cycles = 0) ∧
    (cause = .ESP_SLEEP_WAKEUP_TIMER → ∃ s,
      kv_find g.kv "status-region" "status-key" = some (.status_obj s) ∧ g1.status = s) := by
  cases cause <;> simp only [get_wakeup_reason] at h
  case ESP_SLEEP_WAKEUP_UNDEFINED =>
    simp only [Except.ok.injEq] at h
    subst h
    exact ⟨rfl, fun _ => rfl, fun hc => absurd hc (by decide)⟩
  case ESP_SLEEP_WAKEUP_TIMER =>
    unfold kv_load at h
    cases f
    · simp only [Bool.false_eq_true, if_false] at h
      cases hk : kv_find g.kv "status-region" "status-key" with
      | none => rw [hk] at h; simp at h
      | some b =>
        rw [hk] at h
        cases b with
        | chars cs => simp at h
        | status_obj s =>
          simp only [Except.ok.injEq] at h
          subst h
          exact ⟨rfl, fun hc => absurd hc (by decide), fun _ => ⟨s, rfl, rfl⟩⟩
    · simp at h
  all_goals
    simp only [Except.ok.injEq] at h
    subst h
    exact ⟨rfl, fun hc => absurd hc (by decide), fun hc => absurd hc (by decide)⟩

/-- The boot path on a freshly booted device: not asleep afterwards; after a
hard reset the counter is 1, after a timer wake it is the stored counter plus
one. -/
theorem app_main_boot (cause : esp_sleep_wakeup_cause_t) (f : Bool) (now : Int)
    (kv : KvStore) (j : JobKind) (g : Sys)
    (h : app_main true cause f now (boot kv) = .ok (j, g)) :
    g.asleep = false ∧
    (cause = .ESP_SLEEP_WAKEUP_UNDEFINED → g.status.cycles = 1) ∧
    (cause = .ESP_SLEEP_WAKEUP_TIMER → ∃ s,
      kv_find kv "status-region" "status-key" = some (.status_obj s) ∧
      g.status.cycles = uint32_wrap (s.cycles + 1)) := by
  unfold app_main app_main_wake at h
  rw [init_system_boot] at h
  simp only [] at h
  split at h
  · simp at h
  · rename_i g3 h3
    split at h3
    · simp at h3
    · rename_i g2 h2
      simp only [Except.ok.injEq] at h3 h
      obtain ⟨w1, w2, w3⟩ := get_wakeup_reason_frame cause f _ g2 h2
      have hf := check_schedule_frame now g3
      rw [h] at hf
      subst h3
      refine ⟨?_, fun hc => ?_, fun hc => ?_⟩
      · rw [hf.2]; exact w1
      · rw [hf.1]
        show uint32_wrap (g2.status.cycles + 1) = 1
        rw [w2 hc]; rfl
      · obtain ⟨s, hk, hs⟩ := w3 hc
        refine ⟨s, hk, ?_⟩
        rw [hf.1]
        show uint32_wrap (g2.status.cycles + 1) = _
        rw [hs]

theorem timer_wake_cycles (g g1 : Sys) (w : TimerWake) (ha : g.asleep = false)
    (h : timer_wake g w = some g1) :
    g1.asleep = false ∧ g1.status.cycles = uint32_wrap (g.status.cycles + 1) := by
  unfold timer_wake at h
  split at h
  · rename_i hs
    split at h
    · rename_i j g2 hm
      simp only [Option.some.injEq] at h
      subst h
      obtain ⟨h1, _, h3⟩ := app_main_boot _ _ _ _ _ _ hm
      obtain ⟨s, hk, hc⟩ := h3 rfl
      have hp := run_persisted g w.before ha hs
      have hk' : kv_find (run g w.before).kv "status-region" "status-key"
          = some (.status_obj s) := hk
      rw [hp] at hk'
      simp only [Option.some.injEq, Blob.status_obj.injEq] at hk'
      refine ⟨h1, ?_⟩
      rw [hc, ← hk', run_cycles]
    · simp at h
  · simp at h

theorem timer_wakes_cycles (ws : List TimerWake) (g g1 : Sys) (ha : g.asleep = false)
    (hc : g.status.cycles < 4294967296) (h : timer_wakes g ws = some g1) :
    g1.status.cycles = (g.status.cycles + ws.length) % 4294967296 := by
  induction ws generalizing g with
  | nil =>
    simp only [timer_wakes, Option.some.injEq] at h
    subst h
    simp only [List.length_nil, Nat.add_zero]
    omega
  | cons w ws ih =>
    simp only [timer_wakes] at h
    split at h
    · rename_i g2 h2
      obtain ⟨a2, c2⟩ := timer_wake_cycles g g2 w ha h2
      have c2' : g2.status.cycles < 4294967296 := by
        rw [c2]; unfold uint32_wrap; omega
      rw [ih g2 a2 c2' h, c2, List.length_cons]
      unfold uint32_wrap
      omega
    · simp at h

/-- C3, as the code has it: a hard-reset wake followed by N consecutive timer
wakes, each restoring the status saved by the previous cycle's sleep task and
then applying `status.cycles++`, leaves `status.cycles` equal to N + 1 modulo
2^32: the hard-reset wake itself is counted. -/
theorem cycles_after_timer_wakes (kv : KvStore) (now : Int) (ws : List TimerWake) (g : Sys)
    (h : wakes kv now ws = some g) :
    g.status.cycles = (ws.length + 1) % 4294967296 := by
  unfold wakes at h
  split at h
  · rename_i j g0 h0
    obtain ⟨a0, c0, _⟩ := app_main_boot _ _ _ _ _ _ h0
    have c1 := c0 rfl
    rw [timer_wakes_cycles ws g0 g a0 (by rw [c1]; decide) h, c1, Nat.add_comm]
  · simp at h

theorem cycles_after_timer_wakes_witness :
    ((wakes [] 0 one_timer_wake).get (by decide)).status.cycles
      = (one_timer_wake.length + 1) % 4294967296 :=
  cycles_after_timer_wakes [] 0 one_timer_wake _ (Option.some_get _).symm

/-- C3, counterexample: after a hard-reset wake and one timer wake the counter
is 2, not 1. -/
theorem cycles_after_one_timer_wake :
    one_timer_wake.length = 1 ∧
    (wakes [] 0 one_timer_wake).map (fun g => g.status.cycles) = some 2 := by
  decide

end LowPower
